import Mathlib

/-!
Verification of the load_analysis repository: a shallow embedding of the
rule-based analyzer (src/analyzer/analyzer.py, src/analyzer/models.py) and of
the stateful metric collector (src/collector/data_collector.py), together with
theorems settling the specification claims about them.

Python floats are modelled as rationals (ℚ), Python ints as Int, optional
values (None) as Option, and Python exceptions as an explicit Except monad.
-/

namespace LoadAnalysis

/-- IssueType enum, src/analyzer/models.py lines 18-26. -/
inductive IssueType where
  | cpu
  | memory
  | iowait
  | network
  | disk_io
  | load
  | process
deriving DecidableEq

/-- IssueSeverity enum, src/analyzer/models.py lines 29-34. -/
inductive IssueSeverity where
  | low
  | medium
  | high
  | critical
deriving DecidableEq

/-- LoadStatus enum, src/analyzer/models.py lines 37-42. -/
inductive LoadStatus where
  | normal
  | elevated
  | high
  | critical
deriving DecidableEq

/-- ProcessInfo, src/collector/models.py lines 81-91.  The optional
io_counters dictionary is a diagnostic payload never read by the analyzer;
it is modelled as an association list of counter names to values. -/
structure ProcessInfo where
  pid : Int
  name : String
  cpu_percent : ℚ
  memory_percent : ℚ
  num_threads : Int
  cmdline : String
  connections : Int
  io_counters : Option (List (String × Int)) := none
deriving DecidableEq

/-- Issue dataclass, src/analyzer/models.py lines 45-55.  The untyped
additional_data dictionary holds heterogeneous diagnostic context that no
analyzer decision ever reads back; it is not carried in the model. -/
structure Issue where
  type : IssueType
  severity : IssueSeverity
  message : String
  value : ℚ
  threshold : ℚ
  recommendation : String
  related_processes : List ProcessInfo := []
deriving DecidableEq

/-- The summary dictionary built by Analyzer._create_summary,
src/analyzer/analyzer.py lines 495-508, as a fixed-field record. -/
structure Summary where
  total_issues : Nat
  critical_issues : Nat
  high_issues : Nat
  load_ratio : ℚ
  cpu_usage : ℚ
  memory_usage : ℚ
  iowait_percent : ℚ
  tcp_connections : Int
  top_cpu_process : Option String
  top_memory_process : Option String
deriving DecidableEq

/-- AnalysisResult dataclass, src/analyzer/models.py lines 80-88.  The
summary dict starts empty and is filled by _create_summary; the empty state
is modelled as none.  Note: the class defines no add_issue method (lines
90-121 define only the getters and to_dict). -/
structure AnalysisResult where
  timestamp : String
  load_status : LoadStatus
  primary_issues : List Issue := []
  secondary_issues : List Issue := []
  recommendations : List String := []
  summary : Option Summary := none
deriving DecidableEq

/-- AnalysisResult.get_all_issues, src/analyzer/models.py lines 90-92. -/
def AnalysisResult.get_all_issues (r : AnalysisResult) : List Issue :=
  r.primary_issues ++ r.secondary_issues

/-- AnalysisResult.get_critical_issues, src/analyzer/models.py lines 94-97. -/
def AnalysisResult.get_critical_issues (r : AnalysisResult) : List Issue :=
  r.get_all_issues.filter (fun issue => issue.severity = IssueSeverity.critical)

/-- AnalysisResult.get_high_issues, src/analyzer/models.py lines 99-102. -/
def AnalysisResult.get_high_issues (r : AnalysisResult) : List Issue :=
  r.get_all_issues.filter (fun issue => issue.severity = IssueSeverity.high)

/-- LoadMetrics, src/collector/models.py lines 11-17. -/
structure LoadMetrics where
  load1 : ℚ
  load5 : ℚ
  load15 : ℚ
  cpu_count : Int
deriving DecidableEq

/-- CPUMetrics, src/collector/models.py lines 20-28.  The times dictionary
(user/system/idle/iowait/interrupt seconds) is carried as an association
list; the analyzer never reads it. -/
structure CPUMetrics where
  usage_per_core : List ℚ
  avg_usage : ℚ
  times : List (String × ℚ) := []
  iowait_percent : ℚ
  context_switches : Int
  interrupts : Int
deriving DecidableEq

/-- MemoryMetrics, src/collector/models.py lines 31-40. -/
structure MemoryMetrics where
  total_gb : ℚ
  used_percent : ℚ
  available_gb : ℚ
  swap_percent : ℚ
  swap_total_gb : ℚ
  buffers_gb : ℚ
  cached_gb : ℚ
deriving DecidableEq

/-- DiskIOMetrics, src/collector/models.py lines 43-53. -/
structure DiskIOMetrics where
  read_count : Int
  write_count : Int
  read_bytes : Int
  write_bytes : Int
  read_time : Int
  write_time : Int
  read_rate : Option ℚ := none
  write_rate : Option ℚ := none
deriving DecidableEq

/-- NetworkMetrics, src/collector/models.py lines 69-78.  The tcp_connections
dict (state name → count) is an association list. -/
structure NetworkMetrics where
  tcp_connections : List (String × Int)
  total_connections : Int
  bytes_sent : Int
  bytes_recv : Int
  packets_sent : Int
  packets_recv : Int
  tcp_backlog : List (String × Int) := []
deriving DecidableEq

/-- InterruptInfo (per-NIC interrupt data), src/collector/models.py
lines 94-101. -/
structure InterruptInfo where
  irq_number : Int
  device_name : String
  interrupt_count : Int
  cpu_distribution : List Int
  rate : Option ℚ := none
deriving DecidableEq

/-- SoftIRQInfo, src/collector/models.py lines 104-113. -/
structure SoftIRQInfo where
  cpu_id : Int
  ksoftirqd_pid : Int
  ksoftirqd_name : String
  cpu_percent : ℚ
  net_rx : Int
  net_tx : Int
  total_softirq : Int
deriving DecidableEq

/-- ContextSwitchInfo, src/collector/models.py lines 116-124. -/
structure ContextSwitchInfo where
  pid : Int
  name : String
  voluntary_switches : Int
  nonvoluntary_switches : Int
  total_switches : Int
  switch_rate : Option ℚ := none
deriving DecidableEq

/-- InterruptMetrics, src/collector/models.py lines 127-139. -/
structure InterruptMetrics where
  total_interrupts : Int
  system_context_switches : Int
  interrupt_rate : Option ℚ := none
  context_switch_rate : Option ℚ := none
  hottest_cpu : Option Int := none
  network_interrupts : List InterruptInfo := []
  cpu_interrupt_distribution : List Int := []
  ksoftirqd_processes : List SoftIRQInfo := []
  high_switch_processes : List ContextSwitchInfo := []
deriving DecidableEq

/-- The top_processes dictionary of MetricsData, keyed by the three fixed
keys used throughout src (by_cpu, by_memory, by_io). -/
structure TopProcesses where
  by_cpu : List ProcessInfo := []
  by_memory : List ProcessInfo := []
  by_io : List ProcessInfo := []
deriving DecidableEq

/-- MetricsData, src/collector/models.py lines 186-196. -/
structure MetricsData where
  timestamp : String
  load : LoadMetrics
  cpu : CPUMetrics
  memory : MemoryMetrics
  disk_io : DiskIOMetrics
  network : NetworkMetrics
  top_processes : TopProcesses
  interrupts : Option InterruptMetrics := none
deriving DecidableEq

/-- Configuration fields read by the analyzer and the collector.  The
non-interrupt fields come from the Config dataclass in src/config/manager.py
lines 24-69 (with their defaults).  The five interrupt-analysis fields
(enable_interrupt_analysis, max_interrupt_rate, network_interrupt_threshold,
ksoftirqd_cpu_threshold, max_context_switch_rate) together with
high_context_switch_threshold are read by src/analyzer/analyzer.py and set by
src/test_interrupt_analysis.py, but are MISSING from the shipped Config
dataclass; they are included here as the attribute view the analyzer code
assumes (see the analysis of claim C2 for the consequence). -/
structure Config where
  load_threshold_multiplier : ℚ := 3/2
  cpu_threshold : ℚ := 80
  memory_threshold : ℚ := 80
  swap_threshold : ℚ := 50
  iowait_threshold : ℚ := 30
  tcp_connections_threshold : Int := 1000
  top_processes_count : Nat := 10
  context_switches_threshold : Int := 10000
  disk_io_read_threshold : Int := 100 * 1024 * 1024
  disk_io_write_threshold : Int := 100 * 1024 * 1024
  enable_interrupt_analysis : Bool := false
  max_interrupt_rate : ℚ := 1000
  network_interrupt_threshold : ℚ := 500
  ksoftirqd_cpu_threshold : ℚ := 30
  max_context_switch_rate : ℚ := 10000
  high_context_switch_threshold : ℚ := 1000
deriving DecidableEq

/-- Analyzer._determine_load_status, src/analyzer/analyzer.py lines 56-68:
strict comparisons of load1 against load_threshold * 2, * 1.5, * 1. -/
def determineLoadStatus (cfg : Config) (m : MetricsData) : LoadStatus :=
  let load_threshold : ℚ := m.load.cpu_count * cfg.load_threshold_multiplier
  let load1 := m.load.load1
  if load1 > load_threshold * 2 then LoadStatus.critical
  else if load1 > load_threshold * (3/2) then LoadStatus.high
  else if load1 > load_threshold then LoadStatus.elevated
  else LoadStatus.normal

/-- Python truthiness-guarded threshold test `x and x > t` used on optional
rate fields throughout analyzer.py (e.g. lines 211, 230, 315, 350, 386, 401):
a missing rate (None) and a rate of exactly 0.0 are both falsy, so neither
fires the rule even against a negative threshold. -/
def truthyGt (x : Option ℚ) (t : ℚ) : Bool :=
  match x with
  | none => false
  | some v => decide (v ≠ 0) && decide (t < v)

/-- Analyzer._get_severity_by_ratio, src/analyzer/analyzer.py lines 510-526.
The optional third and fourth arguments are ABSOLUTE cutoffs compared
directly against the value (defaulting to threshold*1.2 and threshold*1.5);
the local `ratio` variable computed in the source is dead and not modelled. -/
def getSeverityByRatio (value threshold : ℚ)
    (high_threshold critical_threshold : Option ℚ := none) : IssueSeverity :=
  let highT := high_threshold.getD (threshold * (6/5))
  let criticalT := critical_threshold.getD (threshold * (3/2))
  if value ≥ criticalT then IssueSeverity.critical
  else if value ≥ highT then IssueSeverity.high
  else if value ≥ threshold then IssueSeverity.medium
  else IssueSeverity.low

/-- Analyzer._analyze_load, src/analyzer/analyzer.py lines 70-96.  Note the
literal arguments 1.5 and 2.0 are passed into the absolute high/critical
cutoff parameters of _get_severity_by_ratio. -/
def analyzeLoad (cfg : Config) (m : MetricsData) (r : AnalysisResult) : AnalysisResult :=
  let load_threshold : ℚ := m.load.cpu_count * cfg.load_threshold_multiplier
  if m.load.load1 > load_threshold then
    let severity := getSeverityByRatio m.load.load1 load_threshold (some (3/2)) (some 2)
    let issue : Issue :=
      { type := IssueType.load
        severity := severity
        message := "High load average"
        value := m.load.load1
        threshold := load_threshold
        recommendation := "Investigate CPU, I/O, or process issues" }
    if severity = IssueSeverity.high ∨ severity = IssueSeverity.critical then
      { r with primary_issues := r.primary_issues ++ [issue] }
    else
      { r with secondary_issues := r.secondary_issues ++ [issue] }
  else r

/-- First block of Analyzer._analyze_cpu (overall CPU usage),
src/analyzer/analyzer.py lines 100-124. -/
def cpuUsageRule (cfg : Config) (m : MetricsData) (r : AnalysisResult) : AnalysisResult :=
  if m.cpu.avg_usage > cfg.cpu_threshold then
    let severity := getSeverityByRatio m.cpu.avg_usage cfg.cpu_threshold (some 90) (some 95)
    let issue : Issue :=
      { type := IssueType.cpu
        severity := severity
        message := "High CPU usage"
        value := m.cpu.avg_usage
        threshold := cfg.cpu_threshold
        recommendation := "Consider CPU scaling or process optimization"
        related_processes := m.top_processes.by_cpu.take 3 }
    if severity = IssueSeverity.high ∨ severity = IssueSeverity.critical then
      { r with primary_issues := r.primary_issues ++ [issue] }
    else
      { r with secondary_issues := r.secondary_issues ++ [issue] }
  else r

/-- Second block of Analyzer._analyze_cpu (I/O wait), src/analyzer/analyzer.py
lines 126-145: the issue is appended to primary_issues unconditionally,
whatever severity tier was assigned. -/
def iowaitRule (cfg : Config) (m : MetricsData) (r : AnalysisResult) : AnalysisResult :=
  if m.cpu.iowait_percent > cfg.iowait_threshold then
    let severity := getSeverityByRatio m.cpu.iowait_percent cfg.iowait_threshold (some 50) (some 70)
    let issue : Issue :=
      { type := IssueType.iowait
        severity := severity
        message := "High I/O wait"
        value := m.cpu.iowait_percent
        threshold := cfg.iowait_threshold
        recommendation := "Check disk performance and optimize I/O operations"
        related_processes := m.top_processes.by_io.take 3 }
    { r with primary_issues := r.primary_issues ++ [issue] }
  else r

/-- Third block of Analyzer._analyze_cpu (context switches),
src/analyzer/analyzer.py lines 147-159: flat MEDIUM, always secondary. -/
def contextSwitchesRule (cfg : Config) (m : MetricsData) (r : AnalysisResult) : AnalysisResult :=
  if m.cpu.context_switches > cfg.context_switches_threshold then
    let issue : Issue :=
      { type := IssueType.cpu
        severity := IssueSeverity.medium
        message := "High context switches"
        value := (m.cpu.context_switches : ℚ)
        threshold := (cfg.context_switches_threshold : ℚ)
        recommendation := "Check for excessive process/thread creation or contention" }
    { r with secondary_issues := r.secondary_issues ++ [issue] }
  else r

/-- Analyzer._analyze_cpu, src/analyzer/analyzer.py lines 98-159: the three
blocks applied in source order. -/
def analyzeCpu (cfg : Config) (m : MetricsData) (r : AnalysisResult) : AnalysisResult :=
  contextSwitchesRule cfg m (iowaitRule cfg m (cpuUsageRule cfg m r))

/-- First block of Analyzer._analyze_memory (memory usage),
src/analyzer/analyzer.py lines 163-188. -/
def memoryUsageRule (cfg : Config) (m : MetricsData) (r : AnalysisResult) : AnalysisResult :=
  if m.memory.used_percent > cfg.memory_threshold then
    let severity := getSeverityByRatio m.memory.used_percent cfg.memory_threshold (some 90) (some 95)
    let issue : Issue :=
      { type := IssueType.memory
        severity := severity
        message := "High memory usage"
        value := m.memory.used_percent
        threshold := cfg.memory_threshold
        recommendation := "Consider memory scaling or optimize memory-intensive processes"
        related_processes := m.top_processes.by_memory.take 3 }
    if severity = IssueSeverity.high ∨ severity = IssueSeverity.critical then
      { r with primary_issues := r.primary_issues ++ [issue] }
    else
      { r with secondary_issues := r.secondary_issues ++ [issue] }
  else r

/-- Second block of Analyzer._analyze_memory (swap usage),
src/analyzer/analyzer.py lines 190-206: always secondary. -/
def swapRule (cfg : Config) (m : MetricsData) (r : AnalysisResult) : AnalysisResult :=
  if m.memory.swap_percent > cfg.swap_threshold then
    let severity := getSeverityByRatio m.memory.swap_percent cfg.swap_threshold (some 70) (some 90)
    let issue : Issue :=
      { type := IssueType.memory
        severity := severity
        message := "High swap usage"
        value := m.memory.swap_percent
        threshold := cfg.swap_threshold
        recommendation := "Increase physical memory or reduce memory usage" }
    { r with secondary_issues := r.secondary_issues ++ [issue] }
  else r

/-- Analyzer._analyze_memory, src/analyzer/analyzer.py lines 161-206. -/
def analyzeMemory (cfg : Config) (m : MetricsData) (r : AnalysisResult) : AnalysisResult :=
  swapRule cfg m (memoryUsageRule cfg m r)

/-- Analyzer._analyze_disk_io, src/analyzer/analyzer.py lines 208-246:
truthiness-guarded rate checks, flat MEDIUM, always secondary. -/
def analyzeDiskIo (cfg : Config) (m : MetricsData) (r : AnalysisResult) : AnalysisResult :=
  let r :=
    if truthyGt m.disk_io.read_rate (cfg.disk_io_read_threshold : ℚ) then
      let issue : Issue :=
        { type := IssueType.disk_io
          severity := IssueSeverity.medium
          message := "High disk read rate"
          value := m.disk_io.read_rate.getD 0
          threshold := (cfg.disk_io_read_threshold : ℚ)
          recommendation := "Check for excessive disk read operations"
          related_processes := m.top_processes.by_io.take 3 }
      { r with secondary_issues := r.secondary_issues ++ [issue] }
    else r
  if truthyGt m.disk_io.write_rate (cfg.disk_io_write_threshold : ℚ) then
    let issue : Issue :=
      { type := IssueType.disk_io
        severity := IssueSeverity.medium
        message := "High disk write rate"
        value := m.disk_io.write_rate.getD 0
        threshold := (cfg.disk_io_write_threshold : ℚ)
        recommendation := "Check for excessive disk write operations"
        related_processes := m.top_processes.by_io.take 3 }
    { r with secondary_issues := r.secondary_issues ++ [issue] }
  else r

/-- Analyzer._analyze_network, src/analyzer/analyzer.py lines 248-305.  In
Python the two state-count checks sit under an isinstance(dict) test that is
always true for a well-formed NetworkMetrics. -/
def analyzeNetwork (cfg : Config) (m : MetricsData) (r : AnalysisResult) : AnalysisResult :=
  let r :=
    if m.network.total_connections > cfg.tcp_connections_threshold then
      let severity := getSeverityByRatio (m.network.total_connections : ℚ)
        (cfg.tcp_connections_threshold : ℚ)
        (some ((cfg.tcp_connections_threshold : ℚ) * (3/2)))
        (some ((cfg.tcp_connections_threshold : ℚ) * 2))
      let issue : Issue :=
        { type := IssueType.network
          severity := severity
          message := "High TCP connections"
          value := (m.network.total_connections : ℚ)
          threshold := (cfg.tcp_connections_threshold : ℚ)
          recommendation := "Check for connection leaks or scaling needs" }
      { r with secondary_issues := r.secondary_issues ++ [issue] }
    else r
  let time_wait_count := (List.lookup "TIME_WAIT" m.network.tcp_connections).getD 0
  let close_wait_count := (List.lookup "CLOSE_WAIT" m.network.tcp_connections).getD 0
  let r :=
    if time_wait_count > 1000 then
      let issue : Issue :=
        { type := IssueType.network
          severity := IssueSeverity.medium
          message := "High TIME_WAIT connections"
          value := (time_wait_count : ℚ)
          threshold := 1000
          recommendation := "Check TCP timeout settings and connection handling" }
      { r with secondary_issues := r.secondary_issues ++ [issue] }
    else r
  if close_wait_count > 500 then
    let issue : Issue :=
      { type := IssueType.network
        severity := IssueSeverity.medium
        message := "High CLOSE_WAIT connections"
        value := (close_wait_count : ℚ)
        threshold := 500
        recommendation := "Application may not be properly closing connections" }
    { r with secondary_issues := r.secondary_issues ++ [issue] }
  else r

/-- Python runtime errors that the embedded code can raise. -/
inductive PyError where
  | attributeError (message : String)
  | zeroDivisionError
  | osError (message : String)
deriving DecidableEq

/-- Model of the call result.add_issue(issue) made by Analyzer._analyze_interrupts
(src/analyzer/analyzer.py lines 316, 335, 351, 369, 387, 402).  The
AnalysisResult class in src/analyzer/models.py defines no method named
add_issue (its methods are get_all_issues, get_critical_issues,
get_high_issues, has_critical_issues, has_high_issues, to_dict), so every
such call raises AttributeError in Python. -/
def addIssue (_r : AnalysisResult) (_issue : Issue) : Except PyError AnalysisResult :=
  Except.error (PyError.attributeError "AnalysisResult object has no attribute add_issue")

/-- Per-NIC loop of Analyzer._analyze_interrupts (step 3),
src/analyzer/analyzer.py lines 349-364. -/
def netIntLoop (cfg : Config) (r : AnalysisResult) :
    List InterruptInfo → Except PyError AnalysisResult
  | [] => Except.ok r
  | ni :: rest =>
    if truthyGt ni.rate cfg.network_interrupt_threshold then do
      let r' ← addIssue r
        { type := IssueType.network
          severity := IssueSeverity.medium
          message := "网卡中断率过高"
          value := ni.rate.getD 0
          threshold := cfg.network_interrupt_threshold
          recommendation := "建议调整网卡中断合并参数或使用RSS分散负载" }
      netIntLoop cfg r' rest
    else netIntLoop cfg r rest

/-- ksoftirqd loop of Analyzer._analyze_interrupts (step 4),
src/analyzer/analyzer.py lines 367-383. -/
def ksoftirqdLoop (cfg : Config) (r : AnalysisResult) :
    List SoftIRQInfo → Except PyError AnalysisResult
  | [] => Except.ok r
  | si :: rest =>
    if si.cpu_percent > cfg.ksoftirqd_cpu_threshold then do
      let r' ← addIssue r
        { type := IssueType.cpu
          severity := IssueSeverity.medium
          message := "软中断处理占用过高"
          value := si.cpu_percent
          threshold := cfg.ksoftirqd_cpu_threshold
          recommendation := "建议检查网络流量或调整NAPI权重" }
      ksoftirqdLoop cfg r' rest
    else ksoftirqdLoop cfg r rest

/-- High-context-switch process loop of Analyzer._analyze_interrupts (step 6),
src/analyzer/analyzer.py lines 400-415. -/
def procCsLoop (cfg : Config) (r : AnalysisResult) :
    List ContextSwitchInfo → Except PyError AnalysisResult
  | [] => Except.ok r
  | pc :: rest =>
    if truthyGt pc.switch_rate cfg.high_context_switch_threshold then do
      let r' ← addIssue r
        { type := IssueType.process
          severity := IssueSeverity.medium
          message := "进程上下文切换频繁"
          value := pc.switch_rate.getD 0
          threshold := cfg.high_context_switch_threshold
          recommendation := "建议使用taskset绑定CPU或优化程序逻辑减少阻塞操作" }
      procCsLoop cfg r' rest
    else procCsLoop cfg r rest

/-- Set-semantics insertion used to model Python set.add on the
recommendation set: deduplicating, membership-faithful (Python iterates the
set in hash order, which is not modelled; every claim about recommendations
is a membership claim). -/
def setAdd (l : List String) (s : String) : List String :=
  if s ∈ l then l else l ++ [s]

/-- Analyzer._add_interrupt_recommendations, src/analyzer/analyzer.py
lines 420-467: seeds the set with the existing result.recommendations and
adds the multi-line advisory strings for each firing condition. -/
def addInterruptRecommendations (cfg : Config) (ints : InterruptMetrics)
    (r : AnalysisResult) : AnalysisResult :=
  let recs := r.recommendations
  let recs :=
    match ints.cpu_interrupt_distribution with
    | [] => recs
    | x :: xs =>
      let l := x :: xs
      let cpu_avg : ℚ := (l.sum : ℚ) / (l.length : ℚ)
      let max_cpu : Int := (l.max?).getD 0
      if cpu_avg > 0 ∧ (max_cpu : ℚ) > cpu_avg * 2 then
        setAdd (setAdd recs "检测到中断负载不均衡，建议启用 irqbalance 服务或手动绑定中断到多核")
          "可以使用: echo <CPU-mask> > /proc/irq/<IRQ-number>/smp_affinity 调整中断亲和性"
      else recs
  let recs :=
    if (ints.network_interrupts.filter
        (fun ni => truthyGt ni.rate cfg.network_interrupt_threshold)) ≠ [] then
      setAdd (setAdd (setAdd (setAdd recs "网卡中断率较高，考虑以下优化:")
        "1. 调整网卡中断合并参数 (ethtool -C)")
        "2. 使用RSS (Receive Side Scaling) 分散网络负载")
        "3. 考虑将网卡中断绑定到专用CPU核心"
    else recs
  let recs :=
    if (ints.ksoftirqd_processes.filter
        (fun si => decide (si.cpu_percent > cfg.ksoftirqd_cpu_threshold))) ≠ [] then
      setAdd (setAdd (setAdd (setAdd recs "软中断处理负载过高，建议:")
        "1. 检查网络流量是否过大")
        "2. 调整网络设备的NAPI权重")
        "3. 考虑使用用户态网络栈 (如DPDK)"
    else recs
  let recs :=
    if truthyGt ints.context_switch_rate cfg.max_context_switch_rate then
      setAdd (setAdd (setAdd (setAdd recs "系统上下文切换过于频繁，建议:")
        "1. 检查是否有大量短时间运行的进程")
        "2. 优化应用程序减少线程创建/销毁")
        "3. 使用进程/线程池减少调度开销"
    else recs
  let recs :=
    let high_switch_procs := ints.high_switch_processes.filter
      (fun p => truthyGt p.switch_rate cfg.high_context_switch_threshold)
    if high_switch_procs ≠ [] then
      let proc_names := (high_switch_procs.take 3).map ContextSwitchInfo.name
      setAdd (setAdd (setAdd (setAdd recs
        ("进程 " ++ String.intercalate ", " proc_names ++ " 等上下文切换频繁，建议:"))
        "1. 使用 taskset 将高切换进程绑定到特定CPU核心")
        "2. 检查进程是否频繁进行I/O或IPC操作")
        "3. 优化程序逻辑减少阻塞操作"
    else recs
  { r with recommendations := recs }

/-- Step 1 of Analyzer._analyze_interrupts (hard-interrupt load),
src/analyzer/analyzer.py lines 314-328. -/
def interruptRateCheck (cfg : Config) (ints : InterruptMetrics)
    (r : AnalysisResult) : Except PyError AnalysisResult :=
  if truthyGt ints.interrupt_rate cfg.max_interrupt_rate then
    addIssue r
      { type := IssueType.cpu
        severity := IssueSeverity.high
        message := "高中断率"
        value := ints.interrupt_rate.getD 0
        threshold := cfg.max_interrupt_rate
        recommendation := "考虑优化中断处理或使用中断合并技术" }
  else pure r

/-- Step 2 of Analyzer._analyze_interrupts (per-core imbalance),
src/analyzer/analyzer.py lines 330-346. -/
def imbalanceCheck (ints : InterruptMetrics)
    (r : AnalysisResult) : Except PyError AnalysisResult :=
  match ints.cpu_interrupt_distribution with
  | [] => pure r
  | x :: xs =>
    let l := x :: xs
    let cpu_avg : ℚ := (l.sum : ℚ) / (l.length : ℚ)
    let max_cpu : Int := (l.max?).getD 0
    if cpu_avg > 0 ∧ (max_cpu : ℚ) > cpu_avg * 3 then
      addIssue r
        { type := IssueType.cpu
          severity := IssueSeverity.medium
          message := "CPU中断负载过高"
          value := (max_cpu : ℚ)
          threshold := cpu_avg * 2
          recommendation := "建议使用irqbalance或手动调整中断亲和性" }
    else pure r

/-- Step 5 of Analyzer._analyze_interrupts (system context-switch rate),
src/analyzer/analyzer.py lines 385-397. -/
def contextSwitchRateCheck (cfg : Config) (ints : InterruptMetrics)
    (r : AnalysisResult) : Except PyError AnalysisResult :=
  if truthyGt ints.context_switch_rate cfg.max_context_switch_rate then
    addIssue r
      { type := IssueType.cpu
        severity := IssueSeverity.high
        message := "高上下文切换率"
        value := ints.context_switch_rate.getD 0
        threshold := cfg.max_context_switch_rate
        recommendation := "建议检查是否有大量短时间运行的进程或优化线程调度" }
  else pure r

/-- Analyzer._analyze_interrupts, src/analyzer/analyzer.py lines 307-418:
the six issue checks in source order (each firing check calls the missing
add_issue method), then _add_interrupt_recommendations. -/
def analyzeInterrupts (cfg : Config) (ints : InterruptMetrics)
    (r : AnalysisResult) : Except PyError AnalysisResult := do
  let r ← interruptRateCheck cfg ints r
  let r ← imbalanceCheck ints r
  let r ← netIntLoop cfg r ints.network_interrupts
  let r ← ksoftirqdLoop cfg r ints.ksoftirqd_processes
  let r ← contextSwitchRateCheck cfg ints r
  let r ← procCsLoop cfg r ints.high_switch_processes
  pure (addInterruptRecommendations cfg ints r)

/-- Analyzer._generate_recommendations, src/analyzer/analyzer.py lines
469-493: rebuilds the recommendation set from scratch (an empty set, NOT
seeded with result.recommendations), then assigns it to the result. -/
def generateRecommendations (r : AnalysisResult) : AnalysisResult :=
  let recs := r.get_all_issues.foldl (fun acc issue => setAdd acc issue.recommendation) []
  let recs :=
    if r.load_status = LoadStatus.critical then
      setAdd recs "URGENT: System is under critical load - immediate action required"
    else if r.load_status = LoadStatus.high then
      setAdd recs "System is under high load - investigate primary issues"
    else recs
  let cpu_issues := r.get_all_issues.filter (fun i => i.type = IssueType.cpu)
  let memory_issues := r.get_all_issues.filter (fun i => i.type = IssueType.memory)
  let iowait_issues := r.get_all_issues.filter (fun i => i.type = IssueType.iowait)
  let recs :=
    if cpu_issues ≠ [] ∧ memory_issues ≠ [] then
      setAdd recs "High CPU and memory usage detected - consider vertical scaling"
    else recs
  let recs :=
    if iowait_issues ≠ [] ∧ (r.get_all_issues.filter (fun i => i.type = IssueType.disk_io)) ≠ [] then
      setAdd recs "I/O bottleneck detected - consider faster storage or I/O optimization"
    else recs
  { r with recommendations := recs }

/-- Analyzer._create_summary, src/analyzer/analyzer.py lines 495-508.
The load_ratio division is total in ℚ (Python would raise
ZeroDivisionError when cpu_count * load_threshold_multiplier = 0; no claim
exercises that case). -/
def createSummary (cfg : Config) (m : MetricsData) (r : AnalysisResult) : AnalysisResult :=
  { r with
    summary := some
      { total_issues := r.get_all_issues.length
        critical_issues := r.get_critical_issues.length
        high_issues := r.get_high_issues.length
        load_ratio := m.load.load1 / ((m.load.cpu_count : ℚ) * cfg.load_threshold_multiplier)
        cpu_usage := m.cpu.avg_usage
        memory_usage := m.memory.used_percent
        iowait_percent := m.cpu.iowait_percent
        tcp_connections := m.network.total_connections
        top_cpu_process := m.top_processes.by_cpu.head?.map ProcessInfo.name
        top_memory_process := m.top_processes.by_memory.head?.map ProcessInfo.name } }

/-- Analyzer.analyze, src/analyzer/analyzer.py lines 27-54: the analysis
pipeline in source order.  `metrics.interrupts and
self.config.enable_interrupt_analysis` guards the interrupt pass (a
dataclass instance is always truthy, so the short-circuit test is
interrupts ≠ None ∧ the flag). -/
def analyze (cfg : Config) (m : MetricsData) : Except PyError AnalysisResult := do
  let r : AnalysisResult :=
    { timestamp := m.timestamp, load_status := determineLoadStatus cfg m }
  let r := analyzeLoad cfg m r
  let r := analyzeCpu cfg m r
  let r := analyzeMemory cfg m r
  let r := analyzeDiskIo cfg m r
  let r := analyzeNetwork cfg m r
  let r ←
    match m.interrupts with
    | some ints => if cfg.enable_interrupt_analysis then analyzeInterrupts cfg ints r else pure r
    | none => pure r
  let r := generateRecommendations r
  let r := createSummary cfg m r
  pure r

/-! ## Collector embedding (src/collector/data_collector.py)

The DataCollector methods read OS sources (psutil calls, /proc files).  Each
such raw source is modelled as an input: an `Except PyError α` when the
Python call can raise and the surrounding code does not catch (so the
exception propagates), or a plain value when the source function involved is
internally guarded.  The mutable collector fields (previous_disk_io,
previous_interrupts, start_time, previous_context_switches) are threaded
explicitly. -/

/-- The previous_disk_io dictionary stored by get_disk_io_metrics,
src/collector/data_collector.py lines 124-128. -/
structure DiskPrev where
  read_bytes : Int
  write_bytes : Int
  timestamp : ℚ
deriving DecidableEq

/-- The psutil.disk_io_counters() record consumed by get_disk_io_metrics. -/
structure DiskCounters where
  read_count : Int
  write_count : Int
  read_bytes : Int
  write_bytes : Int
  read_time : Int
  write_time : Int
deriving DecidableEq

/-- Core of DataCollector.get_disk_io_metrics for a present counter record,
src/collector/data_collector.py lines 106-130: build the metrics, populate
read_rate/write_rate only when a previous sample exists and time_diff > 0
(no monotonicity check on the byte counters), then unconditionally store the
new baseline. -/
def diskRateUpdate (prev : Option DiskPrev) (d : DiskCounters) (now : ℚ) :
    DiskIOMetrics × DiskPrev :=
  let base : DiskIOMetrics :=
    { read_count := d.read_count, write_count := d.write_count
      read_bytes := d.read_bytes, write_bytes := d.write_bytes
      read_time := d.read_time, write_time := d.write_time
      read_rate := none, write_rate := none }
  let m :=
    match prev with
    | some p =>
      let time_diff := now - p.timestamp
      if time_diff > 0 then
        { base with
          read_rate := some (((d.read_bytes - p.read_bytes : Int) : ℚ) / time_diff)
          write_rate := some (((d.write_bytes - p.write_bytes : Int) : ℚ) / time_diff) }
      else base
    | none => base
  (m, { read_bytes := d.read_bytes, write_bytes := d.write_bytes, timestamp := now })

/-- DataCollector.get_disk_io_metrics, src/collector/data_collector.py lines
100-130.  A falsy counters record (None) returns all-zero metrics at once,
leaving previous_disk_io untouched; the unguarded psutil call propagates its
error. -/
def getDiskIOMetrics (prev : Option DiskPrev) (now : ℚ)
    (disk_io : Except PyError (Option DiskCounters)) :
    Except PyError (DiskIOMetrics × Option DiskPrev) := do
  let d? ← disk_io
  match d? with
  | none =>
    pure ({ read_count := 0, write_count := 0, read_bytes := 0, write_bytes := 0,
            read_time := 0, write_time := 0 }, prev)
  | some d =>
    let (m, p) := diskRateUpdate prev d now
    pure (m, some p)

/-- The interrupt-rate state threaded by get_interrupt_metrics:
previous_interrupts and start_time (src/collector/data_collector.py lines
33, 36, 382-383). -/
structure InterruptRateState where
  previous_interrupts : Option Int := none
  start_time : ℚ
deriving DecidableEq

/-- The time_delta computed at src/collector/data_collector.py line 355:
current_time - self.start_time when previous_interrupts is truthy, else the
float 1.0 (the hasattr test never fails).  hasattr is always true (the field is
initialised to None), and Python truthiness makes both None and a stored
total of 0 fall back to 1.0. -/
def interruptTimeDelta (st : InterruptRateState) (now : ℚ) : ℚ :=
  match st.previous_interrupts with
  | some p => if p ≠ 0 then now - st.start_time else 1
  | none => 1

/-- The interrupt-rate computation and state update of
DataCollector.get_interrupt_metrics, src/collector/data_collector.py lines
354-365 and 381-383: with a previous total on record the rate is
delta/time_delta when time_delta > 0 and the float 0 otherwise (NOT None);
on the first call the rate is None.  The new total and time always become
the next baseline. -/
def interruptRateStep (st : InterruptRateState) (total : Int) (now : ℚ) :
    Option ℚ × InterruptRateState :=
  let time_delta := interruptTimeDelta st now
  let rate : Option ℚ :=
    match st.previous_interrupts with
    | some p => some (if time_delta > 0 then ((total - p : Int) : ℚ) / time_delta else 0)
    | none => none
  (rate, { previous_interrupts := some total, start_time := now })

/-- DataCollector._get_context_switches, src/collector/data_collector.py
lines 563-585: reads the cumulative ctxt counter (an unreadable /proc/stat
is caught and yields (0, None) with the stored baseline untouched); with a
previous baseline the rate is delta/time_delta when time_delta > 0 and the
float 0 otherwise (NOT None). -/
def getContextSwitches (prev : Option Int) (time_delta : ℚ)
    (ctxt_src : Except PyError Int) : Int × Option ℚ × Option Int :=
  match ctxt_src with
  | Except.error _ => (0, none, prev)
  | Except.ok v =>
    let rate : Option ℚ :=
      match prev with
      | some p => some (if time_delta > 0 then ((v - p : Int) : ℚ) / time_delta else 0)
      | none => none
    (v, rate, some v)

/-- DataCollector._get_cpu_interrupt_distribution, src/collector/
data_collector.py lines 482-496: per-core totals across the parsed
/proc/interrupts rows, padded to the widest row. -/
def cpuInterruptDistribution (data : List (String × List Int)) : List Int :=
  match data with
  | [] => []
  | _ =>
    let max_cpus := (data.map (fun kv => kv.2.length)).max?.getD 0
    data.foldl
      (fun totals kv =>
        totals.zipWith (fun t c => t + c) (kv.2 ++ List.replicate (max_cpus - kv.2.length) 0))
      (List.replicate max_cpus 0)

/-- The full per-key state of get_interrupt_metrics. -/
structure InterruptCollectState where
  rate_state : InterruptRateState
  previous_context_switches : Option Int := none
deriving DecidableEq

/-- DataCollector.get_interrupt_metrics, src/collector/data_collector.py
lines 352-395.  The parsed /proc/interrupts table, the classified NIC
interrupt rows, the ksoftirqd scan and the high-context-switch process scan
are taken at their source boundaries (each of those helpers swallows its own
errors and yields an empty collection on failure, lines 397-426, 428-480,
498-533, 587-636). -/
def getInterruptMetrics (st : InterruptCollectState) (now : ℚ)
    (interrupts_data : List (String × List Int))
    (network_interrupts : List InterruptInfo)
    (ksoftirqd_processes : List SoftIRQInfo)
    (ctxt_src : Except PyError Int)
    (high_switch_processes : List ContextSwitchInfo) :
    InterruptMetrics × InterruptCollectState :=
  let time_delta := interruptTimeDelta st.rate_state now
  let total_interrupts := (interrupts_data.map (fun kv => kv.2.sum)).sum
  let (interrupt_rate, rate_state) := interruptRateStep st.rate_state total_interrupts now
  let distribution := cpuInterruptDistribution interrupts_data
  let hottest_cpu : Option Int :=
    match distribution with
    | [] => none
    | _ => some (distribution.indexOf (distribution.max?.getD 0) : Int)
  let (system_context_switches, context_switch_rate, prev_ctxt) :=
    getContextSwitches st.previous_context_switches time_delta ctxt_src
  ({ total_interrupts := total_interrupts
     system_context_switches := system_context_switches
     interrupt_rate := interrupt_rate
     context_switch_rate := context_switch_rate
     hottest_cpu := hottest_cpu
     network_interrupts := network_interrupts
     cpu_interrupt_distribution := distribution
     ksoftirqd_processes := ksoftirqd_processes
     high_switch_processes := high_switch_processes },
   { rate_state := rate_state, previous_context_switches := prev_ctxt })

/-- DataCollector.get_load_metrics, src/collector/data_collector.py lines
38-48: os.getloadavg() is NOT wrapped in any try/except, so its failure
propagates; `psutil.cpu_count(logical=True) or 1` maps both None and 0
to 1 by Python truthiness. -/
def getLoadMetrics (loadavg : Except PyError (ℚ × ℚ × ℚ))
    (cpu_count : Option Int) : Except PyError LoadMetrics := do
  let (l1, l5, l15) ← loadavg
  let c := match cpu_count with
    | some c => if c ≠ 0 then c else 1
    | none => 1
  pure { load1 := l1, load5 := l5, load15 := l15, cpu_count := c }

/-- The psutil.cpu_times() record consumed by get_cpu_metrics. -/
structure CpuTimesRaw where
  user : ℚ
  system : ℚ
  idle : ℚ
  iowait : ℚ
  irq : ℚ
  softirq : ℚ
deriving DecidableEq

/-- DataCollector.get_cpu_metrics, src/collector/data_collector.py lines
50-80: the psutil calls are unguarded (their failure propagates, and an
empty per-core list makes `sum/len` raise ZeroDivisionError);
_get_proc_stat_info (lines 241-258) catches IOError/ValueError and degrades
to (0, 0). -/
def getCpuMetrics (percpu : Except PyError (List ℚ))
    (cpu_times : Except PyError CpuTimesRaw)
    (proc_stat : Except PyError (Int × Int)) : Except PyError CPUMetrics := do
  let cpu_usage ← percpu
  if cpu_usage.length = 0 then
    Except.error PyError.zeroDivisionError
  else do
    let avg_usage := cpu_usage.sum / (cpu_usage.length : ℚ)
    let t ← cpu_times
    let times_dict : List (String × ℚ) :=
      [("user", t.user), ("system", t.system), ("idle", t.idle),
       ("iowait", t.iowait), ("interrupt", t.irq + t.softirq)]
    let total_cpu_time := t.user + t.system + t.idle + t.iowait + (t.irq + t.softirq)
    let iowait_percent := if total_cpu_time > 0 then t.iowait / total_cpu_time * 100 else 0
    let (context_switches, interrupts) :=
      match proc_stat with
      | Except.ok v => v
      | Except.error _ => (0, 0)
    pure { usage_per_core := cpu_usage, avg_usage := avg_usage, times := times_dict,
           iowait_percent := iowait_percent, context_switches := context_switches,
           interrupts := interrupts }

/-- The psutil.virtual_memory() record consumed by get_memory_metrics. -/
structure VmRaw where
  total : Int
  percent : ℚ
  available : Int
deriving DecidableEq

/-- The psutil.swap_memory() record consumed by get_memory_metrics. -/
structure SwapRaw where
  total : Int
  percent : ℚ
deriving DecidableEq

/-- DataCollector.get_memory_metrics, src/collector/data_collector.py lines
82-98: the two psutil calls are unguarded; _parse_meminfo (lines 260-277,
values already in bytes) catches IOError/ValueError and degrades to an
empty dictionary. -/
def getMemoryMetrics (vm : Except PyError VmRaw) (swap : Except PyError SwapRaw)
    (meminfo : Except PyError (List (String × Int))) : Except PyError MemoryMetrics := do
  let v ← vm
  let s ← swap
  let mi := match meminfo with
    | Except.ok d => d
    | Except.error _ => []
  pure { total_gb := (v.total : ℚ) / 1024 ^ 3
         used_percent := v.percent
         available_gb := (v.available : ℚ) / 1024 ^ 3
         swap_percent := s.percent
         swap_total_gb := (s.total : ℚ) / 1024 ^ 3
         buffers_gb := (((List.lookup "Buffers" mi).getD 0 : Int) : ℚ) / 1024 ^ 3
         cached_gb := (((List.lookup "Cached" mi).getD 0 : Int) : ℚ) / 1024 ^ 3 }

/-- The data read inside the try block of get_network_metrics. -/
structure NetRaw where
  connection_states : List String
  bytes_sent : Int
  bytes_recv : Int
  packets_sent : Int
  packets_recv : Int
  tcp_backlog : List (String × Int)
deriving DecidableEq

/-- The per-state counting loop of get_network_metrics,
src/collector/data_collector.py lines 140-142 (dict insertion order as in
Python). -/
def tcpStateCounts (states : List String) : List (String × Int) :=
  states.foldl
    (fun d s =>
      if (List.lookup s d).isSome then
        d.map (fun p => if p.1 = s then (p.1, p.2 + 1) else p)
      else d ++ [(s, 1)])
    []

/-- The zero/empty placeholder built by the except branch of
get_network_metrics, src/collector/data_collector.py lines 159-168. -/
def emptyNetworkMetrics : NetworkMetrics :=
  { tcp_connections := [], total_connections := 0, bytes_sent := 0,
    bytes_recv := 0, packets_sent := 0, packets_recv := 0, tcp_backlog := [] }

/-- DataCollector.get_network_metrics, src/collector/data_collector.py lines
132-168: the whole body is wrapped in try/except Exception, degrading any
failure to the zero/empty placeholder. -/
def getNetworkMetrics (net : Except PyError NetRaw) : NetworkMetrics :=
  match net with
  | Except.error _ => emptyNetworkMetrics
  | Except.ok n =>
    { tcp_connections := tcpStateCounts n.connection_states
      total_connections := n.connection_states.length
      bytes_sent := n.bytes_sent
      bytes_recv := n.bytes_recv
      packets_sent := n.packets_sent
      packets_recv := n.packets_recv
      tcp_backlog := n.tcp_backlog }

/-- DataCollector.get_top_processes, src/collector/data_collector.py lines
170-222: the per-process detail collection (guarded per process) is taken at
its boundary as the list of surviving ProcessInfo entries, but the outer
psutil.process_iter enumeration is unguarded; the final stable descending
sort by the selected key and the top-N truncation are modelled. -/
def getTopProcesses (cfg : Config) (sortKey : ProcessInfo → ℚ)
    (procs : Except PyError (List ProcessInfo)) : Except PyError (List ProcessInfo) := do
  let ps ← procs
  pure ((ps.mergeSort (fun a b => decide (sortKey b ≤ sortKey a))).take cfg.top_processes_count)

/-- DataCollector._get_top_io_processes, src/collector/data_collector.py
lines 308-350: same shape, sorted by the total_bytes entry of io_counters
(0 when absent). -/
def getTopIoProcesses (cfg : Config)
    (procs : Except PyError (List ProcessInfo)) : Except PyError (List ProcessInfo) := do
  let ps ← procs
  let ioTotal : ProcessInfo → Int := fun p =>
    match p.io_counters with
    | some d => (List.lookup "total_bytes" d).getD 0
    | none => 0
  pure ((ps.mergeSort (fun a b => decide (ioTotal b ≤ ioTotal a))).take cfg.top_processes_count)

/-- The mutable DataCollector state relevant to one collect_all_metrics
tick. -/
structure CollectorState where
  previous_disk_io : Option DiskPrev := none
  interrupt_state : InterruptCollectState
deriving DecidableEq

/-- The raw OS-source outcomes of one tick feeding
collect_all_metrics. -/
structure RawSources where
  timestamp : String
  now : ℚ
  loadavg : Except PyError (ℚ × ℚ × ℚ)
  cpu_count : Option Int
  cpu_percent_percpu : Except PyError (List ℚ)
  cpu_times : Except PyError CpuTimesRaw
  proc_stat : Except PyError (Int × Int)
  virtual_memory : Except PyError VmRaw
  swap_memory : Except PyError SwapRaw
  meminfo : Except PyError (List (String × Int))
  disk_io_counters : Except PyError (Option DiskCounters)
  net : Except PyError NetRaw
  procs_by_cpu : Except PyError (List ProcessInfo)
  procs_by_memory : Except PyError (List ProcessInfo)
  procs_by_io : Except PyError (List ProcessInfo)
  interrupts_data : List (String × List Int)
  network_interrupts : List InterruptInfo
  ksoftirqd_processes : List SoftIRQInfo
  ctxt_src : Except PyError Int
  high_switch_processes : List ContextSwitchInfo

/-- DataCollector.collect_all_metrics, src/collector/data_collector.py lines
224-239: builds the MetricsData record by calling every family getter in
argument order.  The method itself has NO exception handling, so any error a
getter lets through aborts the whole sample. -/
def collectAllMetrics (cfg : Config) (st : CollectorState) (src : RawSources) :
    Except PyError (MetricsData × CollectorState) := do
  let load ← getLoadMetrics src.loadavg src.cpu_count
  let cpu ← getCpuMetrics src.cpu_percent_percpu src.cpu_times src.proc_stat
  let memory ← getMemoryMetrics src.virtual_memory src.swap_memory src.meminfo
  let (disk_io, prev_disk) ← getDiskIOMetrics st.previous_disk_io src.now src.disk_io_counters
  let network := getNetworkMetrics src.net
  let by_cpu ← getTopProcesses cfg ProcessInfo.cpu_percent src.procs_by_cpu
  let by_memory ← getTopProcesses cfg ProcessInfo.memory_percent src.procs_by_memory
  let by_io ← getTopIoProcesses cfg src.procs_by_io
  let (interrupts, int_state) := getInterruptMetrics st.interrupt_state src.now
    src.interrupts_data src.network_interrupts src.ksoftirqd_processes
    src.ctxt_src src.high_switch_processes
  pure
    ({ timestamp := src.timestamp, load := load, cpu := cpu, memory := memory,
       disk_io := disk_io, network := network,
       top_processes := { by_cpu := by_cpu, by_memory := by_memory, by_io := by_io },
       interrupts := some interrupts },
     { previous_disk_io := prev_disk, interrupt_state := int_state })

/-! ## Spec-side definition and concrete fixtures -/

/-- The overall-status rule as the specification words it (spec §4.3):
CRITICAL if the load ratio exceeds 2, HIGH if it exceeds 1.5, ELEVATED if it
exceeds 1, else NORMAL. -/
def specLoadStatusOfRatio (ratio : ℚ) : LoadStatus :=
  if ratio > 2 then LoadStatus.critical
  else if ratio > 3/2 then LoadStatus.high
  else if ratio > 1 then LoadStatus.elevated
  else LoadStatus.normal

/-- The Config defaults of src/config/manager.py (interrupt analysis off). -/
def defaultConfig : Config := {}

/-- The configuration built by src/test_interrupt_analysis.py lines 23-27:
defaults with interrupt analysis enabled. -/
def interruptConfig : Config := { enable_interrupt_analysis := true }

/-- A quiet 4-core load sample. -/
def benignLoad : LoadMetrics := { load1 := 1, load5 := 1, load15 := 1, cpu_count := 4 }

/-- A quiet CPU sample. -/
def benignCpu : CPUMetrics :=
  { usage_per_core := [0, 0, 0, 0], avg_usage := 0, iowait_percent := 0,
    context_switches := 0, interrupts := 0 }

/-- A quiet memory sample. -/
def benignMemory : MemoryMetrics :=
  { total_gb := 8, used_percent := 0, available_gb := 8, swap_percent := 0,
    swap_total_gb := 0, buffers_gb := 0, cached_gb := 0 }

/-- A quiet disk sample (no rates yet). -/
def benignDisk : DiskIOMetrics :=
  { read_count := 0, write_count := 0, read_bytes := 0, write_bytes := 0,
    read_time := 0, write_time := 0 }

/-- A quiet network sample. -/
def benignNetwork : NetworkMetrics :=
  { tcp_connections := [], total_connections := 0, bytes_sent := 0,
    bytes_recv := 0, packets_sent := 0, packets_recv := 0 }

/-- A snapshot on which no rule fires (no interrupt data). -/
def benignMetrics : MetricsData :=
  { timestamp := "t0", load := benignLoad, cpu := benignCpu, memory := benignMemory,
    disk_io := benignDisk, network := benignNetwork, top_processes := {} }

/-- The benign snapshot with only load1 replaced. -/
def loadOnlyMetrics (l1 : ℚ) : MetricsData :=
  { benignMetrics with load := { benignLoad with load1 := l1 } }

/-- A fresh AnalysisResult as analyze constructs it before the rule passes. -/
def emptyResult : AnalysisResult := { timestamp := "t0", load_status := LoadStatus.normal }

/-- The benign snapshot with avg_usage exactly at the default cpu_threshold. -/
def cpuAt80 : MetricsData := { benignMetrics with cpu := { benignCpu with avg_usage := 80 } }

/-- Stored disk baseline before a counter reset. -/
def resetPrevDisk : DiskPrev := { read_bytes := 25, write_bytes := 25, timestamp := 0 }

/-- Counter record after a reset (both byte counters dropped to 5). -/
def resetCounters : DiskCounters :=
  { read_count := 0, write_count := 0, read_bytes := 5, write_bytes := 5,
    read_time := 0, write_time := 0 }

/-! ## Severity helper lemmas -/

/-- Once a value has reached its rule threshold, _get_severity_by_ratio never
answers LOW, whatever absolute high/critical cutoffs are supplied. -/
theorem getSeverityByRatio_not_low (v T : ℚ) (ho hc : Option ℚ) (h : T ≤ v) :
    getSeverityByRatio v T ho hc ≠ IssueSeverity.low := by
  unfold getSeverityByRatio
  by_cases h1 : v ≥ hc.getD (T * (3/2))
  · simp [h1]
  · by_cases h2 : v ≥ ho.getD (T * (6/5))
    · simp [h1, h2]
    · simp [h1, h2, h]

/-- Membership in all issues after appending one issue to primary_issues. -/
theorem mem_all_addPrimary {r : AnalysisResult} {a i : Issue} :
    i ∈ (AnalysisResult.get_all_issues { r with primary_issues := r.primary_issues ++ [a] }) ↔
      i ∈ r.get_all_issues ∨ i = a := by
  simp only [AnalysisResult.get_all_issues, List.mem_append, List.mem_singleton]
  tauto

/-- Membership in all issues after appending one issue to secondary_issues. -/
theorem mem_all_addSecondary {r : AnalysisResult} {a i : Issue} :
    i ∈ (AnalysisResult.get_all_issues { r with secondary_issues := r.secondary_issues ++ [a] }) ↔
      i ∈ r.get_all_issues ∨ i = a := by
  simp only [AnalysisResult.get_all_issues, List.mem_append, List.mem_singleton]
  tauto

/-- Any issue present after the CPU-usage block was already present or is not
LOW (it fired above the gate, where the severity is at least MEDIUM). -/
theorem cpuUsageRule_new_not_low (cfg : Config) (m : MetricsData) (r : AnalysisResult)
    (i : Issue) (hmem : i ∈ (cpuUsageRule cfg m r).get_all_issues) :
    i ∈ r.get_all_issues ∨ i.severity ≠ IssueSeverity.low := by
  by_cases hgate : m.cpu.avg_usage > cfg.cpu_threshold
  · simp only [cpuUsageRule, if_pos hgate] at hmem
    split_ifs at hmem
    · rcases mem_all_addPrimary.mp hmem with h | h
      · exact Or.inl h
      · subst h
        exact Or.inr (getSeverityByRatio_not_low _ _ _ _ (le_of_lt hgate))
    · rcases mem_all_addSecondary.mp hmem with h | h
      · exact Or.inl h
      · subst h
        exact Or.inr (getSeverityByRatio_not_low _ _ _ _ (le_of_lt hgate))
  · simp only [cpuUsageRule, if_neg hgate] at hmem
    exact Or.inl hmem

/-- Any issue present after the I/O-wait block was already present or is not
LOW. -/
theorem iowaitRule_new_not_low (cfg : Config) (m : MetricsData) (r : AnalysisResult)
    (i : Issue) (hmem : i ∈ (iowaitRule cfg m r).get_all_issues) :
    i ∈ r.get_all_issues ∨ i.severity ≠ IssueSeverity.low := by
  by_cases hgate : m.cpu.iowait_percent > cfg.iowait_threshold
  · simp only [iowaitRule, if_pos hgate] at hmem
    rcases mem_all_addPrimary.mp hmem with h | h
    · exact Or.inl h
    · subst h
      exact Or.inr (getSeverityByRatio_not_low _ _ _ _ (le_of_lt hgate))
  · simp only [iowaitRule, if_neg hgate] at hmem
    exact Or.inl hmem

/-- Any issue present after the context-switch block was already present or
is the flat-MEDIUM issue, hence not LOW. -/
theorem contextSwitchesRule_new_not_low (cfg : Config) (m : MetricsData) (r : AnalysisResult)
    (i : Issue) (hmem : i ∈ (contextSwitchesRule cfg m r).get_all_issues) :
    i ∈ r.get_all_issues ∨ i.severity ≠ IssueSeverity.low := by
  by_cases hgate : m.cpu.context_switches > cfg.context_switches_threshold
  · simp only [contextSwitchesRule, if_pos hgate] at hmem
    rcases mem_all_addSecondary.mp hmem with h | h
    · exact Or.inl h
    · subst h; simp
  · simp only [contextSwitchesRule, if_neg hgate] at hmem
    exact Or.inl hmem

/-! ## C7: overall status versus the ratio specification -/

/-- C7: the overall status equals the ratio-based specification (CRITICAL if
load1/(cpu_count*multiplier) > 2, HIGH if > 1.5, ELEVATED if > 1, else
NORMAL, all strict) whenever the threshold is positive, and the four concrete
scenarios at cpu_count = 4, multiplier = 1.5 (threshold 6.0) give
NORMAL/ELEVATED/HIGH/CRITICAL for load1 = 5.0 / 7.0 / 9.5 / 13.0. -/
theorem determineLoadStatus_ratio_spec :
    (∀ (cfg : Config) (m : MetricsData),
        0 < (m.load.cpu_count : ℚ) * cfg.load_threshold_multiplier →
        determineLoadStatus cfg m =
          specLoadStatusOfRatio
            (m.load.load1 / ((m.load.cpu_count : ℚ) * cfg.load_threshold_multiplier))) ∧
    determineLoadStatus defaultConfig (loadOnlyMetrics 5) = LoadStatus.normal ∧
    determineLoadStatus defaultConfig (loadOnlyMetrics 7) = LoadStatus.elevated ∧
    determineLoadStatus defaultConfig (loadOnlyMetrics (19/2)) = LoadStatus.high ∧
    determineLoadStatus defaultConfig (loadOnlyMetrics 13) = LoadStatus.critical := by
  refine ⟨?_, ?_, ?_, ?_, ?_⟩
  · intro cfg m h
    set T := (m.load.cpu_count : ℚ) * cfg.load_threshold_multiplier with hTdef
    simp only [determineLoadStatus, specLoadStatusOfRatio, gt_iff_lt, lt_div_iff₀ h]
    have e2 : T * 2 = 2 * T := by ring
    have e32 : T * (3/2) = 3/2 * T := by ring
    have e1 : (1 : ℚ) * T = T := by ring
    rw [e2, e32, e1]
  all_goals
    norm_num [determineLoadStatus, loadOnlyMetrics, benignMetrics, benignLoad, defaultConfig]

/-- Witness for C7 at the CRITICAL scenario. -/
theorem determineLoadStatus_ratio_spec_witness :
    determineLoadStatus defaultConfig (loadOnlyMetrics 13) =
      specLoadStatusOfRatio (13 / ((4 : ℚ) * (3/2))) := by
  have h := determineLoadStatus_ratio_spec.1 defaultConfig (loadOnlyMetrics 13)
    (by norm_num [loadOnlyMetrics, benignMetrics, benignLoad, defaultConfig])
  simpa [loadOnlyMetrics, benignMetrics, benignLoad, defaultConfig] using h

/-! ## C1: the load-severity cutoffs are absolute, not threshold-relative -/

/-- C1 (code evaluated at the failing input): with the default configuration
(threshold 4 * 1.5 = 6.0) and load1 = 7.0, the claim prescribes MEDIUM in
secondary_issues (7 < 6*1.5), but _analyze_load passes the literals 1.5/2.0
as ABSOLUTE cutoffs, so 7 ≥ 2.0 is classified CRITICAL and lands in
primary_issues. -/
theorem analyzeLoad_literal_cutoffs_make_7_critical :
    (analyzeLoad defaultConfig (loadOnlyMetrics 7) emptyResult).primary_issues.map Issue.severity
        = [IssueSeverity.critical] ∧
    (analyzeLoad defaultConfig (loadOnlyMetrics 7) emptyResult).secondary_issues = [] := by
  norm_num [analyzeLoad, getSeverityByRatio, loadOnlyMetrics, benignMetrics,
    benignLoad, defaultConfig, emptyResult]

/-! ## C3: counter reset produces a negative rate, not null -/

/-- C3 counterexample: baseline read_bytes = 25 at t = 0, reset reading
read_bytes = 5 at t = 10 → read_rate = -2.0, a negative number instead of
the null the claim requires. -/
theorem diskRate_counter_reset_negative :
    (diskRateUpdate (some resetPrevDisk) resetCounters 10).1.read_rate = some (-2) ∧
    (-2 : ℚ) < 0 := by
  norm_num [diskRateUpdate, resetPrevDisk, resetCounters]

/-- C3 amended: with a stored baseline and positive elapsed time the code
always answers rate = delta/elapsed — on a counter reset that value is
NEGATIVE, never null — and the new raw value unconditionally becomes the
baseline (so the next tick is again delta-based); the interrupt-rate tracker
behaves the same way. -/
theorem counter_reset_negative_rate_and_rebaseline :
    (∀ (p : DiskPrev) (d : DiskCounters) (now : ℚ), 0 < now - p.timestamp →
      (diskRateUpdate (some p) d now).1.read_rate
          = some (((d.read_bytes - p.read_bytes : Int) : ℚ) / (now - p.timestamp)) ∧
      (diskRateUpdate (some p) d now).1.write_rate
          = some (((d.write_bytes - p.write_bytes : Int) : ℚ) / (now - p.timestamp)) ∧
      (diskRateUpdate (some p) d now).2
          = { read_bytes := d.read_bytes, write_bytes := d.write_bytes, timestamp := now } ∧
      (d.read_bytes < p.read_bytes →
        (((d.read_bytes - p.read_bytes : Int) : ℚ) / (now - p.timestamp)) < 0)) ∧
    (∀ (pi : Int) (s : ℚ) (total : Int) (now : ℚ), pi ≠ 0 → s < now →
      (interruptRateStep { previous_interrupts := some pi, start_time := s } total now).1
          = some (((total - pi : Int) : ℚ) / (now - s)) ∧
      (interruptRateStep { previous_interrupts := some pi, start_time := s } total now).2
          = { previous_interrupts := some total, start_time := now }) := by
  constructor
  · intro p d now h
    have h' : p.timestamp < now := sub_pos.mp h
    refine ⟨?_, ?_, ?_, ?_⟩
    · simp [diskRateUpdate, h']
    · simp [diskRateUpdate, h']
    · simp [diskRateUpdate]
    · intro hlt
      apply div_neg_of_neg_of_pos _ h
      exact_mod_cast sub_neg.mpr hlt
  · intro pi s total now hpi hs
    have hd : interruptTimeDelta { previous_interrupts := some pi, start_time := s } now
        = now - s := by
      simp [interruptTimeDelta, hpi]
    constructor
    · simp [interruptRateStep, hd, sub_pos.mpr hs]
    · simp [interruptRateStep]

/-- Witness for the amended C3 at the concrete reset inputs. -/
theorem counter_reset_negative_rate_witness :
    (diskRateUpdate (some resetPrevDisk) resetCounters 10).1.write_rate
        = some (((5 - 25 : Int) : ℚ) / (10 - 0)) ∧
    (interruptRateStep { previous_interrupts := some 10, start_time := 0 } 5 10).1
        = some (((5 - 10 : Int) : ℚ) / (10 - 0)) := by
  constructor
  · have h := (counter_reset_negative_rate_and_rebaseline.1 resetPrevDisk resetCounters 10
      (by norm_num [resetPrevDisk])).2.1
    simpa [resetPrevDisk, resetCounters] using h
  · have h := (counter_reset_negative_rate_and_rebaseline.2 10 0 5 10
      (by norm_num) (by norm_num)).1
    simpa using h

/-! ## C5: the threshold boundary is exclusive -/

/-- C5 counterexample: with avg_usage exactly equal to cpu_threshold (80.0),
the CPU pass produces NO issue at all — the claim instead requires a MEDIUM
issue at v == T. -/
theorem cpu_at_threshold_produces_no_issue :
    (analyzeCpu defaultConfig cpuAt80 emptyResult).get_all_issues = [] := by
  norm_num [analyzeCpu, cpuUsageRule, iowaitRule, contextSwitchesRule,
    AnalysisResult.get_all_issues, cpuAt80, benignMetrics, benignCpu,
    defaultConfig, emptyResult]

/-- C5 amended: every rule gate is strict (v ≤ T — including v == T —
produces no Issue), and a rule that does fire never assigns LOW because
v > T forces at least the MEDIUM branch of _get_severity_by_ratio. -/
theorem threshold_boundary_exclusive_never_low :
    (∀ (v T : ℚ) (ho hc : Option ℚ), T ≤ v →
        getSeverityByRatio v T ho hc ≠ IssueSeverity.low) ∧
    (∀ cfg m r, m.load.load1 ≤ (m.load.cpu_count : ℚ) * cfg.load_threshold_multiplier →
        analyzeLoad cfg m r = r) ∧
    (∀ cfg m r, m.cpu.avg_usage ≤ cfg.cpu_threshold → cpuUsageRule cfg m r = r) ∧
    (∀ cfg m r, m.cpu.iowait_percent ≤ cfg.iowait_threshold → iowaitRule cfg m r = r) ∧
    (∀ cfg m r, m.memory.used_percent ≤ cfg.memory_threshold → memoryUsageRule cfg m r = r) ∧
    (∀ cfg m r, m.memory.swap_percent ≤ cfg.swap_threshold → swapRule cfg m r = r) ∧
    (∀ cfg m r i, i ∈ (analyzeCpu cfg m r).get_all_issues →
        i ∈ r.get_all_issues ∨ i.severity ≠ IssueSeverity.low) := by
  refine ⟨getSeverityByRatio_not_low, ?_, ?_, ?_, ?_, ?_, ?_⟩
  · intro cfg m r h; simp [analyzeLoad, not_lt.mpr h]
  · intro cfg m r h; simp [cpuUsageRule, not_lt.mpr h]
  · intro cfg m r h; simp [iowaitRule, not_lt.mpr h]
  · intro cfg m r h; simp [memoryUsageRule, not_lt.mpr h]
  · intro cfg m r h; simp [swapRule, not_lt.mpr h]
  · intro cfg m r i hmem
    rcases contextSwitchesRule_new_not_low cfg m _ i hmem with h1 | h1
    · rcases iowaitRule_new_not_low cfg m _ i h1 with h2 | h2
      · exact cpuUsageRule_new_not_low cfg m r i h2
      · exact Or.inr h2
    · exact Or.inr h1

/-! ## C8: rate-tracker first sample, delta formula, equal-time behaviour -/

/-- C8 counterexample: the interrupt-rate tracker at two observations with
EQUAL timestamps answers the float 0 (some 0), not the null the claim
states for every counter key. -/
theorem interrupt_tracker_equal_time_returns_zero :
    (interruptRateStep { previous_interrupts := some 10, start_time := 5 } 25 5).1 = some 0 ∧
    some (0 : ℚ) ≠ (none : Option ℚ) := by
  refine ⟨by norm_num [interruptRateStep, interruptTimeDelta], by simp⟩

/-- C8 amended: for the disk tracker the claim holds as stated (first
observation stores the baseline and yields null; afterwards rate =
delta/elapsed — observations (10, t0), (25, t0+5) give 3.0; equal timestamps
yield null).  The interrupt tracker also yields null on the first
observation, but on equal timestamps it yields the float 0 instead of null
(still no division by zero). -/
theorem rate_tracker_first_null_delta_formula :
    (∀ (d : DiskCounters) (now : ℚ),
      (diskRateUpdate none d now).1.read_rate = none ∧
      (diskRateUpdate none d now).1.write_rate = none ∧
      (diskRateUpdate none d now).2
          = { read_bytes := d.read_bytes, write_bytes := d.write_bytes, timestamp := now }) ∧
    (∀ (p : DiskPrev) (d : DiskCounters) (now : ℚ),
      p.read_bytes ≤ d.read_bytes → 0 < now - p.timestamp →
      (diskRateUpdate (some p) d now).1.read_rate
          = some (((d.read_bytes - p.read_bytes : Int) : ℚ) / (now - p.timestamp))) ∧
    (∀ (p : DiskPrev) (d : DiskCounters),
      (diskRateUpdate (some p) d p.timestamp).1.read_rate = none ∧
      (diskRateUpdate (some p) d p.timestamp).1.write_rate = none) ∧
    ((diskRateUpdate
        (some (diskRateUpdate none
          { read_count := 0, write_count := 0, read_bytes := 10, write_bytes := 10,
            read_time := 0, write_time := 0 } 0).2)
        { read_count := 0, write_count := 0, read_bytes := 25, write_bytes := 25,
          read_time := 0, write_time := 0 } 5).1.read_rate = some 3) ∧
    (∀ (s : ℚ) (total : Int) (now : ℚ),
      (interruptRateStep { previous_interrupts := none, start_time := s } total now).1 = none) ∧
    (∀ (pi : Int) (total : Int) (now : ℚ), pi ≠ 0 →
      (interruptRateStep { previous_interrupts := some pi, start_time := now } total now).1
          = some 0) := by
  refine ⟨?_, ?_, ?_, ?_, ?_, ?_⟩
  · intro d now; exact ⟨rfl, rfl, rfl⟩
  · intro p d now _ h; simp [diskRateUpdate, sub_pos.mp h]
  · intro p d; simp [diskRateUpdate]
  · norm_num [diskRateUpdate]
  · intro s total now; simp [interruptRateStep]
  · intro pi total now hpi; simp [interruptRateStep, interruptTimeDelta, hpi]

/-- Witness for the amended C8: delta formula applied at the concrete
(10, t0), (25, t0+5) observation pair, and the zero answer of the interrupt
tracker at equal times 7 = 7. -/
theorem rate_tracker_first_null_delta_formula_witness :
    (diskRateUpdate (some { read_bytes := 10, write_bytes := 10, timestamp := 0 })
        { read_count := 0, write_count := 0, read_bytes := 25, write_bytes := 25,
          read_time := 0, write_time := 0 } 5).1.read_rate
        = some (((25 - 10 : Int) : ℚ) / (5 - 0)) ∧
    (interruptRateStep { previous_interrupts := some 3, start_time := 7 } 9 7).1 = some 0 := by
  constructor
  · have h := rate_tracker_first_null_delta_formula.2.1
      { read_bytes := 10, write_bytes := 10, timestamp := 0 }
      { read_count := 0, write_count := 0, read_bytes := 25, write_bytes := 25,
        read_time := 0, write_time := 0 } 5 (by norm_num) (by norm_num)
    simpa using h
  · exact rate_tracker_first_null_delta_formula.2.2.2.2.2 3 9 7 (by norm_num)

/-! ## C10: the high filter is exact -/

/-- C10: get_high_issues returns exactly the issues whose severity is HIGH
(CRITICAL issues are excluded), and the summary counts high_issues and
critical_issues by those two disjoint filters. -/
theorem get_high_issues_exactly_high :
    ∀ (r : AnalysisResult) (i : Issue),
      (i ∈ r.get_high_issues ↔ i ∈ r.get_all_issues ∧ i.severity = IssueSeverity.high) ∧
      (i.severity = IssueSeverity.critical → i ∉ r.get_high_issues) ∧
      (∀ (cfg : Config) (m : MetricsData),
        (createSummary cfg m r).summary.map Summary.high_issues
            = some r.get_high_issues.length ∧
        (createSummary cfg m r).summary.map Summary.critical_issues
            = some r.get_critical_issues.length) := by
  intro r i
  have hmem : i ∈ r.get_high_issues ↔ i ∈ r.get_all_issues ∧ i.severity = IssueSeverity.high := by
    simp [AnalysisResult.get_high_issues, List.mem_filter]
  refine ⟨hmem, ?_, ?_⟩
  · intro hc hin
    have := (hmem.mp hin).2
    rw [hc] at this
    exact absurd this (by simp)
  · intro cfg m
    simp [createSummary]

/-- A CRITICAL issue fixture. -/
def sampleCriticalIssue : Issue :=
  { type := IssueType.cpu, severity := IssueSeverity.critical, message := "m",
    value := 1, threshold := 0, recommendation := "r" }

/-- A HIGH issue fixture. -/
def sampleHighIssue : Issue :=
  { type := IssueType.cpu, severity := IssueSeverity.high, message := "m",
    value := 1, threshold := 0, recommendation := "r" }

/-- A result holding one CRITICAL and one HIGH issue. -/
def sampleResult : AnalysisResult :=
  { timestamp := "t", load_status := LoadStatus.normal,
    primary_issues := [sampleCriticalIssue, sampleHighIssue] }

/-- Witness for C10: the CRITICAL issue is excluded from the high list. -/
theorem get_high_issues_exactly_high_witness :
    sampleCriticalIssue ∉ sampleResult.get_high_issues :=
  (get_high_issues_exactly_high sampleResult sampleCriticalIssue).2.1 rfl

/-! ## C2: the interrupt rule crashes instead of emitting its issue -/

/-- Interrupt data whose interrupt_rate (2000/s) exceeds the default
max_interrupt_rate (1000/s). -/
def interruptFiringData : InterruptMetrics :=
  { total_interrupts := 10000, system_context_switches := 0, interrupt_rate := some 2000 }

/-- The benign snapshot carrying the firing interrupt data. -/
def interruptFiringMetrics : MetricsData :=
  { benignMetrics with interrupts := some interruptFiringData }

/-- C2 (code evaluated at the failing input): with interrupt analysis
enabled and interrupt_rate 2000 > max_interrupt_rate 1000, analyze does not
return a result carrying one HIGH primary issue — it raises AttributeError,
because _analyze_interrupts calls the nonexistent AnalysisResult.add_issue. -/
theorem analyze_interrupt_rule_raises_attributeError :
    analyze interruptConfig interruptFiringMetrics
      = Except.error (PyError.attributeError "AnalysisResult object has no attribute add_issue") := by
  norm_num [analyze, determineLoadStatus, analyzeLoad, analyzeCpu, cpuUsageRule, iowaitRule,
    contextSwitchesRule, analyzeMemory, memoryUsageRule, swapRule, analyzeDiskIo,
    analyzeNetwork, analyzeInterrupts, interruptRateCheck, imbalanceCheck,
    contextSwitchRateCheck, truthyGt, addIssue, interruptConfig,
    interruptFiringMetrics, interruptFiringData, benignMetrics, benignLoad, benignCpu,
    benignMemory, benignDisk, benignNetwork, Bind.bind, Except.bind, pure, Except.pure]

/-! ## C6: interrupt advisories are produced, then overwritten -/

/-- Interrupt data with an imbalanced distribution: max 12 is above 2x the
mean 14/3 (advisory condition) but below 3x (so no issue fires and the
missing add_issue is never reached). -/
def imbalanceInterruptData : InterruptMetrics :=
  { total_interrupts := 14, system_context_switches := 0,
    cpu_interrupt_distribution := [12, 1, 1] }

/-- The benign snapshot carrying the imbalanced interrupt data. -/
def imbalanceMetrics : MetricsData :=
  { benignMetrics with interrupts := some imbalanceInterruptData }

/-- The imbalance advisory string of _add_interrupt_recommendations. -/
def imbalanceAdvisory : String :=
  "检测到中断负载不均衡，建议启用 irqbalance 服务或手动绑定中断到多核"

/-- The affinity advisory string of _add_interrupt_recommendations. -/
def affinityAdvisory : String :=
  "可以使用: echo <CPU-mask> > /proc/irq/<IRQ-number>/smp_affinity 调整中断亲和性"

/-- C6 (code evaluated at the failing input): _analyze_interrupts does merge
the two imbalance advisory strings into result.recommendations, but
_generate_recommendations — which analyze runs afterwards — rebuilds the
recommendation set from the issues alone, so the advisories are absent from
the final AnalysisResult. -/
theorem interrupt_advisories_lost_from_final_result :
    (analyzeInterrupts interruptConfig imbalanceInterruptData emptyResult).map
        AnalysisResult.recommendations
      = Except.ok [imbalanceAdvisory, affinityAdvisory] ∧
    (analyze interruptConfig imbalanceMetrics).map AnalysisResult.recommendations
      = Except.ok [] := by
  constructor
  · norm_num [analyzeInterrupts, interruptRateCheck, imbalanceCheck, contextSwitchRateCheck,
      addInterruptRecommendations, netIntLoop, ksoftirqdLoop,
      procCsLoop, truthyGt, addIssue, setAdd, imbalanceInterruptData, emptyResult, interruptConfig,
      imbalanceAdvisory, affinityAdvisory, List.max?, Bind.bind, Except.bind, pure,
      Except.pure, Except.map]
    decide
  · norm_num [analyze, determineLoadStatus, analyzeLoad, analyzeCpu, cpuUsageRule, iowaitRule,
      contextSwitchesRule, analyzeMemory, memoryUsageRule, swapRule, analyzeDiskIo,
      analyzeNetwork, analyzeInterrupts, interruptRateCheck, imbalanceCheck,
      contextSwitchRateCheck, addInterruptRecommendations, netIntLoop,
      ksoftirqdLoop, procCsLoop, generateRecommendations, createSummary,
      AnalysisResult.get_all_issues, AnalysisResult.get_critical_issues,
      AnalysisResult.get_high_issues, truthyGt, setAdd, imbalanceMetrics,
      imbalanceInterruptData, benignMetrics, benignLoad, benignCpu, benignMemory,
      benignDisk, benignNetwork, interruptConfig, emptyResult, List.max?,
      Bind.bind, Except.bind, pure, Except.pure, Except.map]
    decide

/-! ## C9: no LOW issue ever reaches primary_issues -/

/-- The load rule only adds HIGH/CRITICAL issues to primary. -/
theorem analyzeLoad_primary_not_low (cfg : Config) (m : MetricsData) (r : AnalysisResult)
    (h : ∀ i ∈ r.primary_issues, i.severity ≠ IssueSeverity.low) :
    ∀ i ∈ (analyzeLoad cfg m r).primary_issues, i.severity ≠ IssueSeverity.low := by
  intro i hi
  by_cases hgate : m.load.load1 > (m.load.cpu_count : ℚ) * cfg.load_threshold_multiplier
  · simp only [analyzeLoad, if_pos hgate] at hi
    split_ifs at hi with hsev
    · simp only [List.mem_append, List.mem_singleton] at hi
      rcases hi with hi | hi
      · exact h i hi
      · subst hi; rcases hsev with hs | hs <;> simp [hs]
    · exact h i hi
  · simp only [analyzeLoad, if_neg hgate] at hi
    exact h i hi

/-- The CPU-usage rule only adds HIGH/CRITICAL issues to primary. -/
theorem cpuUsageRule_primary_not_low (cfg : Config) (m : MetricsData) (r : AnalysisResult)
    (h : ∀ i ∈ r.primary_issues, i.severity ≠ IssueSeverity.low) :
    ∀ i ∈ (cpuUsageRule cfg m r).primary_issues, i.severity ≠ IssueSeverity.low := by
  intro i hi
  by_cases hgate : m.cpu.avg_usage > cfg.cpu_threshold
  · simp only [cpuUsageRule, if_pos hgate] at hi
    split_ifs at hi with hsev
    · simp only [List.mem_append, List.mem_singleton] at hi
      rcases hi with hi | hi
      · exact h i hi
      · subst hi; rcases hsev with hs | hs <;> simp [hs]
    · exact h i hi
  · simp only [cpuUsageRule, if_neg hgate] at hi
    exact h i hi

/-- The I/O-wait rule adds to primary unconditionally, but the gate keeps
the severity at least MEDIUM. -/
theorem iowaitRule_primary_not_low (cfg : Config) (m : MetricsData) (r : AnalysisResult)
    (h : ∀ i ∈ r.primary_issues, i.severity ≠ IssueSeverity.low) :
    ∀ i ∈ (iowaitRule cfg m r).primary_issues, i.severity ≠ IssueSeverity.low := by
  intro i hi
  by_cases hgate : m.cpu.iowait_percent > cfg.iowait_threshold
  · simp only [iowaitRule, if_pos hgate] at hi
    simp only [List.mem_append, List.mem_singleton] at hi
    rcases hi with hi | hi
    · exact h i hi
    · subst hi
      exact getSeverityByRatio_not_low _ _ _ _ (le_of_lt hgate)
  · simp only [iowaitRule, if_neg hgate] at hi
    exact h i hi

/-- The memory-usage rule only adds HIGH/CRITICAL issues to primary. -/
theorem memoryUsageRule_primary_not_low (cfg : Config) (m : MetricsData) (r : AnalysisResult)
    (h : ∀ i ∈ r.primary_issues, i.severity ≠ IssueSeverity.low) :
    ∀ i ∈ (memoryUsageRule cfg m r).primary_issues, i.severity ≠ IssueSeverity.low := by
  intro i hi
  by_cases hgate : m.memory.used_percent > cfg.memory_threshold
  · simp only [memoryUsageRule, if_pos hgate] at hi
    split_ifs at hi with hsev
    · simp only [List.mem_append, List.mem_singleton] at hi
      rcases hi with hi | hi
      · exact h i hi
      · subst hi; rcases hsev with hs | hs <;> simp [hs]
    · exact h i hi
  · simp only [memoryUsageRule, if_neg hgate] at hi
    exact h i hi

/-- The context-switch rule never touches primary_issues. -/
theorem contextSwitchesRule_primary (cfg : Config) (m : MetricsData) (r : AnalysisResult) :
    (contextSwitchesRule cfg m r).primary_issues = r.primary_issues := by
  unfold contextSwitchesRule
  split_ifs <;> rfl

/-- The swap rule never touches primary_issues. -/
theorem swapRule_primary (cfg : Config) (m : MetricsData) (r : AnalysisResult) :
    (swapRule cfg m r).primary_issues = r.primary_issues := by
  unfold swapRule
  split_ifs <;> rfl

/-- The disk-I/O pass never touches primary_issues. -/
theorem analyzeDiskIo_primary (cfg : Config) (m : MetricsData) (r : AnalysisResult) :
    (analyzeDiskIo cfg m r).primary_issues = r.primary_issues := by
  unfold analyzeDiskIo
  split_ifs <;> rfl

/-- The network pass never touches primary_issues. -/
theorem analyzeNetwork_primary (cfg : Config) (m : MetricsData) (r : AnalysisResult) :
    (analyzeNetwork cfg m r).primary_issues = r.primary_issues := by
  unfold analyzeNetwork
  dsimp only
  split_ifs <;> rfl

/-- A NIC loop that returns ok never changed the result (add_issue always
raises, so ok means no element fired). -/
theorem netIntLoop_ok (cfg : Config) :
    ∀ (l : List InterruptInfo) (r r' : AnalysisResult),
      netIntLoop cfg r l = Except.ok r' → r' = r := by
  intro l
  induction l with
  | nil =>
    intro r r' h
    simpa [netIntLoop] using h.symm
  | cons ni rest ih =>
    intro r r' h
    cases hc : truthyGt ni.rate cfg.network_interrupt_threshold with
    | true => simp [netIntLoop, hc, addIssue, Bind.bind, Except.bind] at h
    | false =>
      simp only [netIntLoop, hc, Bool.false_eq_true, if_false] at h
      exact ih r r' h

/-- A ksoftirqd loop that returns ok never changed the result. -/
theorem ksoftirqdLoop_ok (cfg : Config) :
    ∀ (l : List SoftIRQInfo) (r r' : AnalysisResult),
      ksoftirqdLoop cfg r l = Except.ok r' → r' = r := by
  intro l
  induction l with
  | nil =>
    intro r r' h
    simpa [ksoftirqdLoop] using h.symm
  | cons si rest ih =>
    intro r r' h
    by_cases hc : si.cpu_percent > cfg.ksoftirqd_cpu_threshold
    · simp [ksoftirqdLoop, hc, addIssue, Bind.bind, Except.bind] at h
    · simp only [ksoftirqdLoop, if_neg hc] at h
      exact ih r r' h

/-- A per-process context-switch loop that returns ok never changed the
result. -/
theorem procCsLoop_ok (cfg : Config) :
    ∀ (l : List ContextSwitchInfo) (r r' : AnalysisResult),
      procCsLoop cfg r l = Except.ok r' → r' = r := by
  intro l
  induction l with
  | nil =>
    intro r r' h
    simpa [procCsLoop] using h.symm
  | cons pc rest ih =>
    intro r r' h
    cases hc : truthyGt pc.switch_rate cfg.high_context_switch_threshold with
    | true => simp [procCsLoop, hc, addIssue, Bind.bind, Except.bind] at h
    | false =>
      simp only [procCsLoop, hc, Bool.false_eq_true, if_false] at h
      exact ih r r' h

/-- The recommendations step _add_interrupt_recommendations only touches recommendations. -/
theorem addInterruptRecommendations_primary (cfg : Config) (ints : InterruptMetrics)
    (r : AnalysisResult) :
    (addInterruptRecommendations cfg ints r).primary_issues = r.primary_issues := rfl

/-- A rate check that returns ok did not fire: the result is unchanged. -/
theorem interruptRateCheck_ok (cfg : Config) (ints : InterruptMetrics)
    (r r' : AnalysisResult) (h : interruptRateCheck cfg ints r = Except.ok r') : r' = r := by
  unfold interruptRateCheck at h
  split at h
  · simp [addIssue] at h
  · simpa [pure, Except.pure] using h.symm

/-- An imbalance check that returns ok did not fire: the result is
unchanged. -/
theorem imbalanceCheck_ok (ints : InterruptMetrics)
    (r r' : AnalysisResult) (h : imbalanceCheck ints r = Except.ok r') : r' = r := by
  unfold imbalanceCheck at h
  split at h
  · simpa [pure, Except.pure] using h.symm
  · dsimp only at h
    split at h
    · simp [addIssue] at h
    · simpa [pure, Except.pure] using h.symm

/-- A context-switch-rate check that returns ok did not fire: the result is
unchanged. -/
theorem contextSwitchRateCheck_ok (cfg : Config) (ints : InterruptMetrics)
    (r r' : AnalysisResult) (h : contextSwitchRateCheck cfg ints r = Except.ok r') : r' = r := by
  unfold contextSwitchRateCheck at h
  split at h
  · simp [addIssue] at h
  · simpa [pure, Except.pure] using h.symm

/-- An interrupt pass that returns ok performed no add_issue call: its result
is exactly the recommendations update applied to the incoming result. -/
theorem analyzeInterrupts_ok_eq (cfg : Config) (ints : InterruptMetrics)
    (r r' : AnalysisResult) (h : analyzeInterrupts cfg ints r = Except.ok r') :
    r' = addInterruptRecommendations cfg ints r := by
  unfold analyzeInterrupts at h
  simp only [Bind.bind, Except.bind] at h
  cases h1 : interruptRateCheck cfg ints r with
  | error e => rw [h1] at h; exact absurd h (by simp)
  | ok r1 =>
    rw [h1] at h
    rw [interruptRateCheck_ok cfg ints r r1 h1] at h
    dsimp only at h
    cases h2 : imbalanceCheck ints r with
    | error e => rw [h2] at h; exact absurd h (by simp)
    | ok r2 =>
      rw [h2] at h
      rw [imbalanceCheck_ok ints r r2 h2] at h
      dsimp only at h
      cases h3 : netIntLoop cfg r ints.network_interrupts with
      | error e => rw [h3] at h; exact absurd h (by simp)
      | ok r3 =>
        rw [h3] at h
        rw [netIntLoop_ok cfg ints.network_interrupts r r3 h3] at h
        dsimp only at h
        cases h4 : ksoftirqdLoop cfg r ints.ksoftirqd_processes with
        | error e => rw [h4] at h; exact absurd h (by simp)
        | ok r4 =>
          rw [h4] at h
          rw [ksoftirqdLoop_ok cfg ints.ksoftirqd_processes r r4 h4] at h
          dsimp only at h
          cases h5 : contextSwitchRateCheck cfg ints r with
          | error e => rw [h5] at h; exact absurd h (by simp)
          | ok r5 =>
            rw [h5] at h
            rw [contextSwitchRateCheck_ok cfg ints r r5 h5] at h
            dsimp only at h
            cases h6 : procCsLoop cfg r ints.high_switch_processes with
            | error e => rw [h6] at h; exact absurd h (by simp)
            | ok r6 =>
              rw [h6] at h
              rw [procCsLoop_ok cfg ints.high_switch_processes r r6 h6] at h
              simpa [pure, Except.pure] using h.symm

/-- C9: for every configuration and snapshot, whenever analyze returns a
result, its primary_issues list contains no LOW-severity issue (the I/O-wait
rule reaches primary unconditionally but its gate keeps severity at least
MEDIUM; all other primary routes filter for HIGH/CRITICAL; the interrupt
pass adds no issue on a successful return). -/
theorem analyze_primary_never_low :
    ∀ (cfg : Config) (m : MetricsData) (r : AnalysisResult),
      analyze cfg m = Except.ok r →
      r.primary_issues.filter (fun i => i.severity = IssueSeverity.low) = [] := by
  intro cfg m r h
  have hE : ∀ i ∈ (analyzeNetwork cfg m (analyzeDiskIo cfg m (analyzeMemory cfg m
      (analyzeCpu cfg m (analyzeLoad cfg m
        { timestamp := m.timestamp,
          load_status := determineLoadStatus cfg m }))))).primary_issues,
      i.severity ≠ IssueSeverity.low := by
    intro i hi
    rw [analyzeNetwork_primary, analyzeDiskIo_primary] at hi
    simp only [analyzeMemory] at hi
    rw [swapRule_primary] at hi
    refine memoryUsageRule_primary_not_low cfg m _ ?_ i hi
    intro i hi
    simp only [analyzeCpu] at hi
    rw [contextSwitchesRule_primary] at hi
    refine iowaitRule_primary_not_low cfg m _ ?_ i hi
    intro i hi
    refine cpuUsageRule_primary_not_low cfg m _ ?_ i hi
    intro i hi
    refine analyzeLoad_primary_not_low cfg m _ ?_ i hi
    intro i hi
    simp at hi
  simp only [analyze, Bind.bind, Except.bind, pure, Except.pure] at h
  cases hI : m.interrupts with
  | none =>
    rw [hI] at h
    dsimp only at h
    injection h with h'
    subst h'
    exact List.filter_eq_nil_iff.mpr (fun i hi => by simpa using hE i hi)
  | some ints =>
    rw [hI] at h
    dsimp only at h
    by_cases hEn : cfg.enable_interrupt_analysis = true
    · rw [if_pos hEn] at h
      cases hAI : analyzeInterrupts cfg ints (analyzeNetwork cfg m (analyzeDiskIo cfg m
          (analyzeMemory cfg m (analyzeCpu cfg m (analyzeLoad cfg m
            { timestamp := m.timestamp,
              load_status := determineLoadStatus cfg m }))))) with
      | error e => rw [hAI] at h; exact absurd h (by simp)
      | ok r6 =>
        rw [hAI] at h
        have h6 := analyzeInterrupts_ok_eq cfg ints _ r6 hAI
        dsimp only at h
        injection h with h'
        subst h'
        rw [h6]
        exact List.filter_eq_nil_iff.mpr (fun i hi => by simpa using hE i hi)
    · rw [if_neg hEn] at h
      injection h with h'
      subst h'
      exact List.filter_eq_nil_iff.mpr (fun i hi => by simpa using hE i hi)

/-- The full output of analyze on the benign snapshot with the default
configuration: NORMAL status, no issues, no recommendations, a zero summary
with load_ratio 1/6. -/
def benignResult : AnalysisResult :=
  { timestamp := "t0", load_status := LoadStatus.normal,
    primary_issues := [], secondary_issues := [], recommendations := [],
    summary := some
      { total_issues := 0, critical_issues := 0, high_issues := 0, load_ratio := 1/6,
        cpu_usage := 0, memory_usage := 0, iowait_percent := 0, tcp_connections := 0,
        top_cpu_process := none, top_memory_process := none } }

/-- Witness for C9 at the benign snapshot. -/
theorem analyze_primary_never_low_witness :
    benignResult.primary_issues.filter (fun i => i.severity = IssueSeverity.low) = [] :=
  analyze_primary_never_low defaultConfig benignMetrics benignResult (by
    norm_num [analyze, determineLoadStatus, analyzeLoad, analyzeCpu, cpuUsageRule,
      iowaitRule, contextSwitchesRule, analyzeMemory, memoryUsageRule, swapRule,
      analyzeDiskIo, analyzeNetwork, generateRecommendations, createSummary,
      AnalysisResult.get_all_issues, AnalysisResult.get_critical_issues,
      AnalysisResult.get_high_issues, truthyGt, setAdd, benignMetrics, benignLoad,
      benignCpu, benignMemory, benignDisk, benignNetwork, defaultConfig, benignResult,
      Bind.bind, Except.bind, pure, Except.pure]
    decide)

/-! ## C4: partial-failure behaviour of collect_all_metrics -/

/-- C4 amended: the network family alone is degradation-protected — failing
the network source turns only the network field into the zero/empty
placeholder and leaves every other family and the collector state unchanged
— whereas collect_all_metrics itself catches nothing, so a failing
load-average source aborts the whole sample with that error. -/
theorem collect_family_failure_isolation :
    (∀ (cfg : Config) (st : CollectorState) (src : RawSources) (e : PyError),
      src.loadavg = Except.error e → collectAllMetrics cfg st src = Except.error e) ∧
    (∀ (cfg : Config) (st : CollectorState) (src : RawSources) (e : PyError),
      collectAllMetrics cfg st { src with net := Except.error e }
        = (collectAllMetrics cfg st src).map
            (fun x => ({ x.1 with network := emptyNetworkMetrics }, x.2))) := by
  constructor
  · intro cfg st src e he
    simp [collectAllMetrics, getLoadMetrics, he, Bind.bind, Except.bind]
  · intro cfg st src e
    simp only [collectAllMetrics]
    cases h1 : getLoadMetrics src.loadavg src.cpu_count with
    | error e1 => simp [Bind.bind, Except.bind, Except.map]
    | ok load =>
      simp only [Bind.bind, Except.bind]
      cases h2 : getCpuMetrics src.cpu_percent_percpu src.cpu_times src.proc_stat with
      | error e2 => simp [Except.map]
      | ok cpu =>
        cases h3 : getMemoryMetrics src.virtual_memory src.swap_memory src.meminfo with
        | error e3 => simp [Except.map]
        | ok memory =>
          cases h4 : getDiskIOMetrics st.previous_disk_io src.now src.disk_io_counters with
          | error e4 => simp [Except.map]
          | ok diskPair =>
            cases h5 : getTopProcesses cfg ProcessInfo.cpu_percent src.procs_by_cpu with
            | error e5 => simp [Except.map]
            | ok by_cpu =>
              cases h6 : getTopProcesses cfg ProcessInfo.memory_percent src.procs_by_memory with
              | error e6 => simp [Except.map]
              | ok by_memory =>
                cases h7 : getTopIoProcesses cfg src.procs_by_io with
                | error e7 => simp [Except.map]
                | ok by_io =>
                  simp [Except.map, getNetworkMetrics, pure, Except.pure]

/-- A healthy psutil.net_connections/net_io_counters reading. -/
def okNetRaw : NetRaw :=
  { connection_states := [], bytes_sent := 0, bytes_recv := 0,
    packets_sent := 0, packets_recv := 0, tcp_backlog := [] }

/-- A healthy psutil.cpu_times() reading. -/
def okCpuTimes : CpuTimesRaw :=
  { user := 1, system := 1, idle := 1, iowait := 0, irq := 0, softirq := 0 }

/-- The collector state right after construction (previous_disk_io = None,
previous_interrupts = None, previous_context_switches = None). -/
def initialCollectorState : CollectorState :=
  { interrupt_state := { rate_state := { start_time := 0 } } }

/-- One tick of raw sources in which every source is healthy except the
load-average call, which raises OSError. -/
def loadFailSources : RawSources :=
  { timestamp := "t1", now := 1,
    loadavg := Except.error (PyError.osError "loadavg unavailable"),
    cpu_count := some 4,
    cpu_percent_percpu := Except.ok [0, 0, 0, 0],
    cpu_times := Except.ok okCpuTimes,
    proc_stat := Except.ok (0, 0),
    virtual_memory := Except.ok { total := 0, percent := 0, available := 0 },
    swap_memory := Except.ok { total := 0, percent := 0 },
    meminfo := Except.ok [],
    disk_io_counters := Except.ok none,
    net := Except.ok okNetRaw,
    procs_by_cpu := Except.ok [],
    procs_by_memory := Except.ok [],
    procs_by_io := Except.ok [],
    interrupts_data := [],
    network_interrupts := [],
    ksoftirqd_processes := [],
    ctxt_src := Except.ok 0,
    high_switch_processes := [] }

/-- C4 counterexample: with every other source healthy, a failing
load-average source makes collect_all_metrics itself raise — the sample is
not degraded to a placeholder load family. -/
theorem collectAllMetrics_load_failure :
    collectAllMetrics defaultConfig initialCollectorState loadFailSources
      = Except.error (PyError.osError "loadavg unavailable") := by
  simp [collectAllMetrics, getLoadMetrics, loadFailSources, Bind.bind, Except.bind]

/-- The load-failure sources with a different error, for the witness. -/
def loadFailSources2 : RawSources :=
  { loadFailSources with loadavg := Except.error (PyError.osError "permission denied") }

/-- Witness for the amended C4 at a concrete failing tick. -/
theorem collect_family_failure_isolation_witness :
    collectAllMetrics defaultConfig initialCollectorState loadFailSources2
      = Except.error (PyError.osError "permission denied") :=
  collect_family_failure_isolation.1 defaultConfig initialCollectorState loadFailSources2
    (PyError.osError "permission denied") rfl

/-- C1 amended: when the load rule fires, the severity compares load1 to the
ABSOLUTE cutoffs 2.0 and 1.5 passed by _analyze_load (not to multiples of
the threshold): CRITICAL when load1 ≥ 2.0 (primary), HIGH when
1.5 ≤ load1 < 2.0 (primary), MEDIUM otherwise (secondary). -/
theorem analyzeLoad_absolute_severity :
    ∀ (cfg : Config) (m : MetricsData) (r : AnalysisResult),
      m.load.load1 > (m.load.cpu_count : ℚ) * cfg.load_threshold_multiplier →
      ((2 ≤ m.load.load1 →
        (analyzeLoad cfg m r).primary_issues.map Issue.severity
            = r.primary_issues.map Issue.severity ++ [IssueSeverity.critical] ∧
        (analyzeLoad cfg m r).secondary_issues = r.secondary_issues) ∧
      (3/2 ≤ m.load.load1 → m.load.load1 < 2 →
        (analyzeLoad cfg m r).primary_issues.map Issue.severity
            = r.primary_issues.map Issue.severity ++ [IssueSeverity.high] ∧
        (analyzeLoad cfg m r).secondary_issues = r.secondary_issues) ∧
      (m.load.load1 < 3/2 →
        (analyzeLoad cfg m r).secondary_issues.map Issue.severity
            = r.secondary_issues.map Issue.severity ++ [IssueSeverity.medium] ∧
        (analyzeLoad cfg m r).primary_issues = r.primary_issues)) := by
  intro cfg m r hgate
  refine ⟨?_, ?_, ?_⟩
  · intro h2
    have hsev : getSeverityByRatio m.load.load1
        ((m.load.cpu_count : ℚ) * cfg.load_threshold_multiplier) (some (3/2)) (some 2)
        = IssueSeverity.critical := by
      simp [getSeverityByRatio, h2]
    simp [analyzeLoad, hgate, hsev]
  · intro h32 hlt2
    have hsev : getSeverityByRatio m.load.load1
        ((m.load.cpu_count : ℚ) * cfg.load_threshold_multiplier) (some (3/2)) (some 2)
        = IssueSeverity.high := by
      simp [getSeverityByRatio, h32, not_le.mpr hlt2]
    simp [analyzeLoad, hgate, hsev]
  · intro hlt32
    have hlt2 : m.load.load1 < 2 := lt_trans hlt32 (by norm_num)
    have hsev : getSeverityByRatio m.load.load1
        ((m.load.cpu_count : ℚ) * cfg.load_threshold_multiplier) (some (3/2)) (some 2)
        = IssueSeverity.medium := by
      simp [getSeverityByRatio, not_le.mpr hlt2, not_le.mpr hlt32, le_of_lt hgate]
    simp [analyzeLoad, hgate, hsev]

/-- Witness for the amended C1 at load1 = 7.0 on a 4-core default
configuration (threshold 6.0): the issue is CRITICAL and primary. -/
theorem analyzeLoad_absolute_severity_witness :
    (analyzeLoad defaultConfig (loadOnlyMetrics 7) emptyResult).primary_issues.map Issue.severity
        = emptyResult.primary_issues.map Issue.severity ++ [IssueSeverity.critical] ∧
    (analyzeLoad defaultConfig (loadOnlyMetrics 7) emptyResult).secondary_issues
        = emptyResult.secondary_issues :=
  (analyzeLoad_absolute_severity defaultConfig (loadOnlyMetrics 7) emptyResult
      (by norm_num [loadOnlyMetrics, benignMetrics, benignLoad, defaultConfig])).1
    (by norm_num [loadOnlyMetrics, benignMetrics, benignLoad])

/-- C6 amended: the interrupt advisories the analyzer merges into
result.recommendations during the interrupt pass are discarded afterwards,
because _generate_recommendations rebuilds the recommendation set from the
issues and load status alone, ignoring whatever recommendations the result
already carries. -/
theorem interrupt_advisories_added_then_discarded :
    (∀ (cfg : Config) (ints : InterruptMetrics) (r r' : AnalysisResult),
        analyzeInterrupts cfg ints r = Except.ok r' →
        r'.recommendations = (addInterruptRecommendations cfg ints r).recommendations) ∧
    (∀ (r : AnalysisResult) (l : List String),
        generateRecommendations { r with recommendations := l }
          = generateRecommendations r) := by
  constructor
  · intro cfg ints r r' h
    rw [analyzeInterrupts_ok_eq cfg ints r r' h]
  · intro r l
    rfl

/-- Witness for the amended C6 at the imbalance fixture. -/
theorem interrupt_advisories_added_then_discarded_witness :
    (({ emptyResult with
        recommendations := [imbalanceAdvisory, affinityAdvisory] } : AnalysisResult)).recommendations
      = (addInterruptRecommendations interruptConfig imbalanceInterruptData
          emptyResult).recommendations :=
  interrupt_advisories_added_then_discarded.1 interruptConfig imbalanceInterruptData
    emptyResult _ (by
      norm_num [analyzeInterrupts, interruptRateCheck, imbalanceCheck, contextSwitchRateCheck,
        addInterruptRecommendations, netIntLoop, ksoftirqdLoop, procCsLoop, truthyGt,
        addIssue, setAdd, imbalanceInterruptData, emptyResult, interruptConfig,
        imbalanceAdvisory, affinityAdvisory, List.max?, Bind.bind, Except.bind, pure,
        Except.pure]
      decide)

/-- Witness for the amended C5: the CPU-usage rule at a value below its
threshold is the identity. -/
theorem threshold_boundary_exclusive_never_low_witness :
    cpuUsageRule defaultConfig benignMetrics emptyResult = emptyResult :=
  threshold_boundary_exclusive_never_low.2.2.1 defaultConfig benignMetrics emptyResult
    (by norm_num [benignMetrics, benignCpu, defaultConfig])

end LoadAnalysis
